import Mathlib

set_option maxRecDepth 100000

/-!
Shallow embedding of `buildscripts/generate_macros.py` (mongodb-labs/mangrove):
a generator for the `MANGROVE_CHILD*` C preprocessor macro family.  Python
integers are modelled as `Int`, Python strings as `String`, a raised exception
as the `error` side of `Except` (or the second component of a pair when the
text written before the raise matters), and the script's `main` as a function
from `sys.argv[1:]` to the observable run outcome.
-/

namespace Mangrove

/-- Decimal digits of `m`, most significant first, with an explicit fuel
argument for structural recursion (`fuel ≥ m` suffices; callers pass `m`
itself).  Returns `[]` for `m = 0`. -/
def natDigitsAux : Nat → Nat → List Char
  | 0, _ => []
  | _ + 1, 0 => []
  | fuel + 1, m + 1 => natDigitsAux fuel ((m + 1) / 10) ++ [Nat.digitChar ((m + 1) % 10)]

/-- Decimal representation of a natural number (Python `str` on a
non-negative integer). -/
def pyStrNat (m : Nat) : String := if m = 0 then "0" else ⟨natDigitsAux m m⟩

/-- Python's built-in `str` (equivalently `"%d" % i`) on an integer. -/
def pyStr (i : Int) : String :=
  if i < 0 then "-" ++ pyStrNat (-i).toNat else pyStrNat i.toNat

/-- Python `range(a, b)` (step 1) as a list of integers. -/
def pyRange (a b : Int) : List Int :=
  (List.range (b - a).toNat).map (fun (k : Nat) => a + (k : Int))

/-- Python `sep.join(l)`. -/
def pyJoin (sep : String) : List String → String
  | [] => ""
  | [x] => x
  | x :: xs => x ++ sep ++ pyJoin sep xs

/-- Python `"".join(l)`: plain concatenation of a list of strings. -/
def pyConcat : List String → String
  | [] => ""
  | x :: xs => x ++ pyConcat xs

/-- `MAX_BSON_DEPTH = 100`, the script's default generation depth. -/
def MAX_BSON_DEPTH : Int := 100

/-- The hard-coded reference text `REFERENCE_MACRO_3` for the depth-3 macro
(the four adjacent Python string literals, concatenated). -/
def REFERENCE_MACRO_3 : String :=
  "#define MANGROVE_CHILD3(base, field1, field2, field3) " ++
  "make_nvp_with_parent(MANGROVE_KEY_BY_VALUE(&std::decay_t<typename decltype(MANGROVE_CHILD2(" ++
  "base, field1, field2))::child_base_type>::field3), " ++
  "MANGROVE_CHILD2(base, field1, field2))"

/-- `prev_fields = ", ".join(["field" + str(i) for i in range(1, n)])` from
`make_mangrove_child`. -/
def prevFields (n : Int) : String :=
  pyJoin ", " ((pyRange 1 n).map (fun i => "field" ++ pyStr i))

/-- The textual reference to variant `n - 1`, as the format string of
`make_mangrove_child` embeds it (twice) in the text generated for variant `n`:
`MANGROVE_CHILD%d(base, %s)` with `%d = n - 1` and `%s = prev_fields`. -/
def childRef (n : Int) : String :=
  "MANGROVE_CHILD" ++ pyStr (n - 1) ++ "(base, " ++ prevFields n ++ ")"

/-- The macro text built by `make_mangrove_child(n)` after its depth guard;
`all_fields = prev_fields + ", field" + str(n)` is inlined at its single use,
and the constant pieces of the format string are split so that the two
embedded references to variant `n - 1` (`childRef n`) are explicit. -/
def child_text (n : Int) : String :=
  "#define " ++ "MANGROVE_CHILD" ++ pyStr n ++ "(base, " ++ prevFields n ++ ", field" ++
    pyStr n ++ ") " ++ "make_nvp_with_parent(" ++
  "MANGROVE_KEY_BY_VALUE(&std::decay_t<" ++ "typename decltype(" ++ childRef n ++
  ")" ++ "::child_base_type>::field" ++ pyStr n ++ "), " ++ childRef n ++ ")"

/-- `make_mangrove_child(n)`: raises `ValueError` for `n < 2`, otherwise
returns the generated macro text. -/
def make_mangrove_child (n : Int) : Except String String :=
  if n < 2 then
    Except.error ("Argument n must be at least 2. Received n=" ++ pyStr n ++ ".")
  else Except.ok (child_text n)

/-- The fixed boilerplate written first by `print_macros` (its opening
triple-quoted literal, byte for byte). -/
def headerText : String :=
  "// clang-format off\n        // Copyright 2016 MongoDB Inc.\n        //\n        // Licensed under the Apache License, Version 2.0 (the \"License\");\n        // you may not use this file except in compliance with the License.\n        // You may obtain a copy of the License at\n        //\n        // http://www.apache.org/licenses/LICENSE-2.0\n        //\n        // Unless required by applicable law or agreed to in writing, software\n        // distributed under the License is distributed on an \"AS IS\" BASIS,\n        // WITHOUT WARRANTIES OR CONDITIONS OF ANY KIND, either express or implied.\n        // See the License for the specific language governing permissions and\n        // limitations under the License.\n\n        #pragma once\n\n        #include <mangrove/config/prelude.hpp>\n\n        // Preprocessor templates for manipulating multiple arguments.\n        #define MANGROVE_PP_NARG(...) MANGROVE_PP_NARG_(__VA_ARGS__, MANGROVE_PP_RSEQ_N())\n        #define MANGROVE_PP_NARG_(...) MANGROVE_PP_ARG_N(__VA_ARGS__)\n        "

/-- The placeholder pieces `"_%d, "` for `n in range(max_n + 2)` of the
selector macro: `_0` up to `_{max_n+1}`. -/
def argNPlaceholders (max_n : Int) : List String :=
  (pyRange 0 (max_n + 2)).map (fun i => "_" ++ pyStr i ++ ", ")

/-- The generated `MANGROVE_PP_ARG_N` selector line (with its two trailing
newlines). -/
def argNLine (max_n : Int) : String :=
  "#define MANGROVE_PP_ARG_N(" ++ pyConcat (argNPlaceholders max_n) ++ " N, ...) N\n\n"

/-- The integers of the reverse sequence, Python `range(max_n + 2, -1, -1)`:
`max_n + 2` down to `0` inclusive. -/
def rseqInts (max_n : Int) : List Int :=
  (pyRange 0 (max_n + 3)).reverse

/-- The generated `MANGROVE_PP_RSEQ_N` line (with its two trailing newlines). -/
def rseqLine (max_n : Int) : String :=
  "#define MANGROVE_PP_RSEQ_N() " ++ pyJoin ", " ((rseqInts max_n).map pyStr) ++ "\n\n"

/-- The fixed base-case line for depth 1. -/
def child1Line : String :=
  "#define MANGROVE_CHILD1(base, field1) MANGROVE_KEY_BY_VALUE(&base::field1)\n\n"

/-- The fixed trailing boilerplate (the closing triple-quoted literal plus the
final `"\n"` write). -/
def footerText : String :=
  "\n\n        #include <mangrove/config/postlude.hpp>\n    // clang-format on\n"

/-- The `for i in range(2, max_n + 1)` loop body of `print_macros`: each
generated variant followed by a blank line.  Returns the text written before
any raise together with the raised message, if any. -/
def writeChildren : List Int → String × Option String
  | [] => ("", none)
  | i :: rest =>
    match make_mangrove_child i with
    | Except.error e => ("", some e)
    | Except.ok s =>
      match writeChildren rest with
      | (w, err) => (s ++ "\n\n" ++ w, err)

/-- `print_macros(outfile, max_n)` as the pair (text written to `outfile`,
error raised, if any).  The trailing boilerplate is written only if the loop
finishes without raising. -/
def print_macros (max_n : Int) : String × Option String :=
  match writeChildren (pyRange 2 (max_n + 1)) with
  | (w, err) =>
    (headerText ++ argNLine max_n ++ rseqLine max_n ++ child1Line ++ w ++
      (match err with
       | none => footerText
       | some _ => ""), err)

/-- The document text produced by `print_macros(·, max_n)`. -/
def docText (max_n : Int) : String := (print_macros max_n).1

/-- Whether `c` is a decimal digit, as used by `int()`. -/
def isDigitChar (c : Char) : Bool := 48 ≤ c.toNat && c.toNat ≤ 57

/-- Numeric value of a list of decimal digit characters. -/
def digitsVal (l : List Char) : Nat := l.foldl (fun a c => 10 * a + (c.toNat - 48)) 0

/-- Whether `c` is one of the whitespace characters Python's `int()` strips
from both ends of its argument (space, tab, newline, vertical tab, form
feed, carriage return). -/
def isPySpace (c : Char) : Bool :=
  c.toNat == 32 || c.toNat == 9 || c.toNat == 10 ||
    c.toNat == 11 || c.toNat == 12 || c.toNat == 13

/-- Python's built-in `int()` on a string: leading and trailing whitespace is
stripped, then an optional sign followed by one or more decimal digits is
accepted; `none` models the `ValueError` raised on anything else. -/
def pyIntParse (s : String) : Option Int :=
  match ((s.data.dropWhile isPySpace).reverse.dropWhile isPySpace).reverse with
  | [] => none
  | '-' :: rest =>
    if rest.isEmpty then none
    else if rest.all isDigitChar then some (-(digitsVal rest : Int)) else none
  | '+' :: rest =>
    if rest.isEmpty then none
    else if rest.all isDigitChar then some (digitsVal rest) else none
  | l => if l.all isDigitChar then some (digitsVal l) else none

/-- Observable outcome of one run of the script: process exit code, whether
the usage message was printed, and the content of the output file (`none` when
the file was never opened). -/
structure RunResult where
  exitCode : Nat
  usagePrinted : Bool
  written : Option String
  deriving DecidableEq

/-- `main()` as a function of `args = sys.argv[1:]`.  `test()` runs first (a
failed assertion would exit with code 1 before any file is opened); a wrong
argument count prints usage and calls `exit()`, which exits with status 0;
otherwise the output file is opened (truncating it) and `print_macros` runs
with depth `int(args[1])` or the default `MAX_BSON_DEPTH`.  A `ValueError`
from `int()` or an error propagating out of `print_macros` exits with code 1,
leaving exactly the text written so far in the file. -/
def pymain (args : List String) : RunResult :=
  match make_mangrove_child 3 with
  | Except.error _ => ⟨1, false, none⟩
  | Except.ok s =>
    if s = REFERENCE_MACRO_3 then
      if args.length = 1 ∨ args.length = 2 then
        if args.length = 2 then
          match pyIntParse (args.getD 1 "") with
          | none => ⟨1, false, some ""⟩
          | some d =>
            match print_macros d with
            | (w, none) => ⟨0, false, some w⟩
            | (w, some _) => ⟨1, false, some w⟩
        else
          match print_macros MAX_BSON_DEPTH with
          | (w, none) => ⟨0, false, some w⟩
          | (w, some _) => ⟨1, false, some w⟩
      else ⟨0, true, none⟩
    else ⟨1, false, none⟩

/-- Number of positions at which `pat` occurs in a character list as a
contiguous substring (overlapping occurrences all counted). -/
def occCount (pat : List Char) : List Char → Nat
  | [] => 0
  | c :: t => (if pat.isPrefixOf (c :: t) then 1 else 0) + occCount pat t

/-- Occurrence count at the level of strings. -/
def occCountStr (pat s : String) : Nat := occCount pat.data s.data

/-- The opening text of the definition of macro variant `i`. -/
def defHead (i : Int) : String := "#define MANGROVE_CHILD" ++ pyStr i ++ "("

/-- The concatenated loop output for an explicit list of depths. -/
def childrenText (is : List Int) : String :=
  pyConcat (is.map (fun i => child_text i ++ "\n\n"))

/-- The ten decimal digit characters. -/
def digitList : List Char := "0123456789".data

/-- The text opening every child-macro variant definition. -/
def famHead : String := "#define MANGROVE_CHILD"

/-- The text opening the generated selector macro definition. -/
def ppArgHead : String := "#define MANGROVE_PP_ARG_N("

/-- The text opening the generated reverse-sequence macro definition. -/
def ppRseqHead : String := "#define MANGROVE_PP_RSEQ_N()"

/-- The characters of `childRef n` after its leading `'M'` (used by the
occurrence-counting proofs). -/
def childRefTail (n : Int) : List Char :=
  "ANGROVE_CHILD".data ++ ((pyStr (n - 1)).data ++ ('(' :: ("base, ".data ++
    ((prevFields n).data ++ ")".data))))

/-- The characters of the generated variant `n` after its opening
`#define MANGROVE_CHILD<n>(` (used by the occurrence-counting proofs). -/
def childTextBody (n : Int) : List Char :=
  "base, ".data ++ ((prevFields n).data ++ (", field".data ++ ((pyStr n).data ++
    (") ".data ++ ("make_nvp_with_parent(".data ++
    ("MANGROVE_KEY_BY_VALUE(&std::decay_t<".data ++ ("typename decltype(".data ++
    ((childRef n).data ++ (")".data ++ ("::child_base_type>::field".data ++
    ((pyStr n).data ++ ("), ".data ++ ((childRef n).data ++ ")".data)))))))))))))

/-- The characters of `defHead i` after its leading `'#'`. -/
def defHeadTail (i : Int) : List Char :=
  "define MANGROVE_CHILD".data ++ ((pyStr i).data ++ ['('])

/-- The document generated for depth `max_n` minus its trailing boilerplate. -/
def docHead (max_n : Int) : String :=
  headerText ++ argNLine max_n ++ rseqLine max_n ++ child1Line ++
    childrenText (pyRange 2 (max_n + 1))

/-- The depth-independent middle of the generated document: the base-case line
followed by the variants for depths `2 .. D`. -/
def midSection (D : Int) : String :=
  child1Line ++ childrenText (pyRange 2 (D + 1))

/-! ### Facts about the embedding of Python `str` on integers -/

theorem string_ext {s t : String} (h : s.data = t.data) : s = t := by
  cases s; cases t; exact congrArg String.mk h

theorem digitChar_mem_digitList : ∀ r : Nat, r < 10 → Nat.digitChar r ∈ digitList := by decide

theorem digitChar_toNat : ∀ r : Nat, r < 10 → (Nat.digitChar r).toNat - 48 = r := by decide

theorem natDigitsAux_subset :
    ∀ fuel m : Nat, ∀ c ∈ natDigitsAux fuel m, c ∈ digitList := by
  intro fuel
  induction fuel with
  | zero => intro m c hc; simp [natDigitsAux] at hc
  | succ f ih =>
    intro m c hc
    match m with
    | 0 => simp [natDigitsAux] at hc
    | k + 1 =>
      simp only [natDigitsAux, List.mem_append, List.mem_singleton] at hc
      rcases hc with hc | hc
      · exact ih _ _ hc
      · exact hc ▸ digitChar_mem_digitList _ (Nat.mod_lt _ (by omega))

theorem pyStrNat_subset (m : Nat) : ∀ c ∈ (pyStrNat m).data, c ∈ digitList := by
  intro c hc
  by_cases h : m = 0
  · subst h
    simp only [pyStrNat, if_pos rfl] at hc
    have hc0 : c = '0' := by simpa using hc
    subst hc0; decide
  · simp only [pyStrNat, if_neg h] at hc
    exact natDigitsAux_subset m m c hc

theorem digitsVal_append (l : List Char) (c : Char) :
    digitsVal (l ++ [c]) = 10 * digitsVal l + (c.toNat - 48) := by
  simp [digitsVal, List.foldl_append]

theorem digitsVal_natDigitsAux :
    ∀ fuel m : Nat, m < 10 ^ fuel → digitsVal (natDigitsAux fuel m) = m := by
  intro fuel
  induction fuel with
  | zero =>
    intro m hm
    have hm0 : m = 0 := by simpa using hm
    subst hm0; rfl
  | succ f ih =>
    intro m hm
    match m with
    | 0 => rfl
    | k + 1 =>
      have hdiv : (k + 1) / 10 < 10 ^ f := by
        rw [Nat.div_lt_iff_lt_mul (by omega)]
        calc k + 1 < 10 ^ (f + 1) := hm
        _ = 10 ^ f * 10 := by rw [pow_succ]
      have hstep : natDigitsAux (f + 1) (k + 1) =
          natDigitsAux f ((k + 1) / 10) ++ [Nat.digitChar ((k + 1) % 10)] := rfl
      rw [hstep, digitsVal_append, ih _ hdiv,
        digitChar_toNat _ (Nat.mod_lt _ (by omega))]
      exact Nat.div_add_mod (k + 1) 10

theorem pyStrNat_val (m : Nat) : digitsVal (pyStrNat m).data = m := by
  by_cases h : m = 0
  · subst h; rfl
  · simp only [pyStrNat, if_neg h]
    exact digitsVal_natDigitsAux m m (Nat.lt_pow_self (by norm_num) m)

theorem pyStrNat_inj {a b : Nat} (h : pyStrNat a = pyStrNat b) : a = b := by
  have hv := congrArg (fun s => digitsVal s.data) h
  simpa [pyStrNat_val] using hv

theorem pyStrNat_data_ne_nil (m : Nat) : (pyStrNat m).data ≠ [] := by
  by_cases h : m = 0
  · subst h; simp [pyStrNat]
  · match m, h with
    | k + 1, _ =>
      simp only [pyStrNat, if_neg (Nat.succ_ne_zero k)]
      show natDigitsAux (k + 1) (k + 1) ≠ []
      simp [natDigitsAux]

theorem pyStr_nonneg (i : Int) (h : 0 ≤ i) : pyStr i = pyStrNat i.toNat := by
  simp [pyStr, not_lt.mpr h]

theorem pyStr_subset (i : Int) (h : 0 ≤ i) : ∀ c ∈ (pyStr i).data, c ∈ digitList := by
  rw [pyStr_nonneg i h]; exact pyStrNat_subset _

theorem pyStr_inj {i j : Int} (h : pyStr i = pyStr j) : i = j := by
  by_cases hi : i < 0 <;> by_cases hj : j < 0
  · simp only [pyStr, if_pos hi, if_pos hj] at h
    have hd := congrArg String.data h
    simp only [String.data_append] at hd
    have hdt : (pyStrNat (-i).toNat).data = (pyStrNat (-j).toNat).data :=
      List.append_cancel_left hd
    have := pyStrNat_inj (string_ext hdt)
    omega
  · exfalso
    simp only [pyStr, if_pos hi, if_neg hj] at h
    have hd := congrArg String.data h
    simp only [String.data_append] at hd
    rcases hnil : (pyStrNat j.toNat).data with _ | ⟨b, bs⟩
    · exact pyStrNat_data_ne_nil _ hnil
    · rw [hnil] at hd
      have hhead : '-' = b := by
        have : "-".data ++ (pyStrNat (-i).toNat).data = b :: bs := hd
        simpa using congrArg (fun l => l.headI) this
      have hbmem : b ∈ digitList := pyStrNat_subset j.toNat b (by rw [hnil]; simp)
      rw [← hhead] at hbmem
      revert hbmem; decide
  · exfalso
    simp only [pyStr, if_neg hi, if_pos hj] at h
    have hd := congrArg String.data h
    simp only [String.data_append] at hd
    rcases hnil : (pyStrNat i.toNat).data with _ | ⟨b, bs⟩
    · exact pyStrNat_data_ne_nil _ hnil
    · rw [hnil] at hd
      have hhead : b = '-' := by
        have : b :: bs = "-".data ++ (pyStrNat (-j).toNat).data := hd
        simpa using congrArg (fun l => l.headI) this
      have hbmem : b ∈ digitList := pyStrNat_subset i.toNat b (by rw [hnil]; simp)
      rw [hhead] at hbmem
      revert hbmem; decide
  · simp only [pyStr, if_neg hi, if_neg hj] at h
    have := pyStrNat_inj h
    omega

theorem pyStr_data_ne {i j : Int} (h : i ≠ j) : (pyStr i).data ≠ (pyStr j).data :=
  fun hd => h (pyStr_inj (string_ext hd))

/-! ### A kit for counting substring occurrences -/

theorem isPrefixOf_cons_of_ne {c y : Char} (p t : List Char) (h : y ≠ c) :
    (c :: p).isPrefixOf (y :: t) = false := by
  show (c == y && p.isPrefixOf t) = false
  rw [beq_eq_false_iff_ne.mpr (Ne.symm h)]
  simp

theorem occCount_cons (pat : List Char) (c : Char) (t : List Char) :
    occCount pat (c :: t) = (if pat.isPrefixOf (c :: t) then 1 else 0) + occCount pat t := rfl

theorem occCount_skip {c : Char} (p : List Char) {x : List Char} (r : List Char)
    (hx : c ∉ x) : occCount (c :: p) (x ++ r) = occCount (c :: p) r := by
  induction x with
  | nil => rfl
  | cons y ys ih =>
    have hy : y ≠ c := fun h => hx (by simp [h])
    rw [List.cons_append, occCount_cons, isPrefixOf_cons_of_ne _ _ hy]
    simpa using ih (fun hm => hx (List.mem_cons_of_mem _ hm))

theorem occCount_hit {c : Char} {p : List Char} (r : List Char) (hp : c ∉ p) :
    occCount (c :: p) ((c :: p) ++ r) = 1 + occCount (c :: p) r := by
  rw [List.cons_append, occCount_cons]
  have hpre : (c :: p).isPrefixOf (c :: (p ++ r)) = true := by
    rw [List.isPrefixOf_iff_prefix]
    exact ⟨r, by simp⟩
  rw [hpre]
  simp [occCount_skip p r hp]

theorem occCount_miss {c : Char} {p h : List Char} (r : List Char) (hh : c ∉ h)
    (hm : ¬ (c :: p) <+: ((c :: h) ++ r)) :
    occCount (c :: p) ((c :: h) ++ r) = occCount (c :: p) r := by
  have hm' : ¬ (c :: p) <+: (c :: (h ++ r)) := by
    rw [← List.cons_append]; exact hm
  rw [List.cons_append, occCount_cons]
  have hpre : (c :: p).isPrefixOf (c :: (h ++ r)) = false := by
    cases hb : (c :: p).isPrefixOf (c :: (h ++ r))
    · rfl
    · exact absurd (List.isPrefixOf_iff_prefix.mp hb) hm'
  rw [hpre]
  simpa using occCount_skip p r hh

theorem not_prefix_of_ne_heads {a b : List Char} (u v : List Char)
    (hlen : a.length = b.length) (hab : a ≠ b) : ¬ (a ++ u) <+: (b ++ v) := by
  intro hpre
  obtain ⟨t, ht⟩ := hpre
  apply hab
  have h1 : ((a ++ u) ++ t).take a.length = a := by
    rw [List.append_assoc, List.take_left]
  have h2 : (b ++ v).take a.length = b := by
    rw [hlen, List.take_left]
  rw [ht] at h1
  exact h1.symm.trans h2

theorem not_prefix_digit_boundary {a b : List Char} {c : Char} (u v : List Char)
    (hca : c ∉ a) (hcb : c ∉ b) (hab : a ≠ b) :
    ¬ (a ++ c :: u) <+: (b ++ c :: v) := by
  intro hpre
  obtain ⟨t, ht⟩ := hpre
  rcases Nat.lt_trichotomy a.length b.length with hlt | heq | hgt
  · have h1 : (b ++ c :: v)[a.length]? = some c := by
      rw [← ht, List.append_assoc, List.getElem?_append_right (le_refl a.length)]
      simp
    rw [List.getElem?_append_left hlt] at h1
    obtain ⟨hidx, hget⟩ := List.getElem?_eq_some.mp h1
    exact hcb (hget ▸ List.getElem_mem hidx)
  · exact not_prefix_of_ne_heads (c :: u) (c :: v) heq hab ⟨t, ht⟩
  · have h1 : (b ++ c :: v)[b.length]? = some c := by
      rw [List.getElem?_append_right (le_refl b.length)]
      simp
    rw [← ht, List.append_assoc,
      List.getElem?_append_left (show b.length < a.length from hgt)] at h1
    obtain ⟨hidx, hget⟩ := List.getElem?_eq_some.mp h1
    exact hca (hget ▸ List.getElem_mem hidx)

theorem not_prefix_cancel {x u v : List Char} (h : ¬ u <+: v) :
    ¬ (x ++ u) <+: (x ++ v) :=
  fun hc => h ((List.prefix_append_right_inj x).mp hc)

/-! ### Facts about `pyRange`, `pyJoin`, `pyConcat` -/

theorem pyRange_length (a b : Int) : (pyRange a b).length = (b - a).toNat := by
  simp [pyRange]

theorem pyRange_getElem (a b : Int) (k : Nat) (hk : k < (pyRange a b).length) :
    (pyRange a b)[k] = a + k := by
  simp [pyRange]

theorem pyRange_mem {a b i : Int} : i ∈ pyRange a b ↔ a ≤ i ∧ i < b := by
  simp only [pyRange, List.mem_map, List.mem_range]
  constructor
  · rintro ⟨k, hk, rfl⟩
    omega
  · intro h
    exact ⟨(i - a).toNat, by omega, by omega⟩

theorem pyRange_nodup (a b : Int) : (pyRange a b).Nodup := by
  unfold pyRange
  refine List.Nodup.map ?_ (List.nodup_range _)
  intro x y hxy
  simp only [add_right_inj, Nat.cast_inj] at hxy
  exact hxy

theorem pyRange_count_one {a b i : Int} (h1 : a ≤ i) (h2 : i < b) :
    (pyRange a b).count i = 1 :=
  List.count_eq_one_of_mem (pyRange_nodup a b) (pyRange_mem.mpr ⟨h1, h2⟩)

theorem pyRange_count_zero {a b i : Int} (h : ¬ (a ≤ i ∧ i < b)) :
    (pyRange a b).count i = 0 := by
  rw [List.count_eq_zero]
  exact fun hm => h (pyRange_mem.mp hm)

theorem pyRange_split (a c b : Int) (h1 : a ≤ c) (h2 : c ≤ b) :
    pyRange a b = pyRange a c ++ pyRange c b := by
  unfold pyRange
  have hn : (b - a).toNat = (c - a).toNat + (b - c).toNat := by omega
  rw [hn, List.range_add, List.map_append, List.map_map]
  congr 1
  apply List.map_congr_left
  intro k hk
  simp only [Function.comp_apply]
  omega

theorem pyRange_single (b : Int) : pyRange b (b + 1) = [b] := by
  unfold pyRange
  rw [show b + 1 - b = (1 : Int) from by omega,
    show (1 : Int).toNat = 1 from rfl, List.range_succ]
  simp

theorem pyRange_succ (a b : Int) (h : a ≤ b) :
    pyRange a (b + 1) = pyRange a b ++ [b] := by
  rw [pyRange_split a b (b + 1) h (by omega), pyRange_single]

theorem pyConcat_append (L1 L2 : List String) :
    pyConcat (L1 ++ L2) = pyConcat L1 ++ pyConcat L2 := by
  induction L1 with
  | nil => simp [pyConcat]
  | cons x xs ih => simp [pyConcat, ih, String.append_assoc]

theorem pyConcat_data_subset (L : List String) (S : List Char)
    (h : ∀ s ∈ L, ∀ x ∈ s.data, x ∈ S) : ∀ x ∈ (pyConcat L).data, x ∈ S := by
  induction L with
  | nil => intro x hx; simp [pyConcat] at hx
  | cons y ys ih =>
    intro x hx
    rw [show pyConcat (y :: ys) = y ++ pyConcat ys from rfl, String.data_append] at hx
    rcases List.mem_append.mp hx with h1 | h2
    · exact h y (by simp) x h1
    · exact ih (fun s hs => h s (List.mem_cons_of_mem _ hs)) x h2

theorem pyJoin_data_subset (sep : String) (L : List String) (S : List Char)
    (hsep : ∀ x ∈ sep.data, x ∈ S) (h : ∀ s ∈ L, ∀ x ∈ s.data, x ∈ S) :
    ∀ x ∈ (pyJoin sep L).data, x ∈ S := by
  induction L with
  | nil => intro x hx; simp [pyJoin] at hx
  | cons y ys ih =>
    intro x hx
    cases ys with
    | nil =>
      rw [show pyJoin sep [y] = y from rfl] at hx
      exact h y (by simp) x hx
    | cons z zs =>
      rw [show pyJoin sep (y :: z :: zs) = y ++ sep ++ pyJoin sep (z :: zs) from rfl,
        String.data_append, String.data_append] at hx
      rcases List.mem_append.mp hx with h1 | h2
      · rcases List.mem_append.mp h1 with h3 | h4
        · exact h y (by simp) x h3
        · exact hsep x h4
      · exact ih (fun s hs => h s (List.mem_cons_of_mem _ hs)) x h2

theorem not_mem_of_subset {l S : List Char} {c : Char}
    (h : ∀ x ∈ l, x ∈ S) (hc : c ∉ S) : c ∉ l :=
  fun hm => hc (h c hm)

/-! ### Character inventories of the variable segments of the output -/

theorem prevFields_subset (n : Int) :
    ∀ x ∈ (prevFields n).data, x ∈ "field0123456789, ".data := by
  apply pyJoin_data_subset
  · decide
  · intro s hs x hx
    rcases List.mem_map.mp hs with ⟨i, hi, rfl⟩
    rw [String.data_append] at hx
    rcases List.mem_append.mp hx with h1 | h2
    · exact (by decide : ∀ y ∈ "field".data, y ∈ "field0123456789, ".data) x h1
    · have hi0 : (0 : Int) ≤ i := by have := (pyRange_mem.mp hi).1; omega
      exact (by decide : ∀ y ∈ digitList, y ∈ "field0123456789, ".data) x
        (pyStr_subset i hi0 x h2)

theorem argNPh_subset (max_n : Int) :
    ∀ x ∈ (pyConcat (argNPlaceholders max_n)).data, x ∈ "_0123456789, ".data := by
  apply pyConcat_data_subset
  intro s hs x hx
  rcases List.mem_map.mp hs with ⟨i, hi, rfl⟩
  rw [String.data_append, String.data_append] at hx
  rcases List.mem_append.mp hx with h1 | h2
  · rcases List.mem_append.mp h1 with h3 | h4
    · exact (by decide : ∀ y ∈ "_".data, y ∈ "_0123456789, ".data) x h3
    · have hi0 : (0 : Int) ≤ i := by have := (pyRange_mem.mp hi).1; omega
      exact (by decide : ∀ y ∈ digitList, y ∈ "_0123456789, ".data) x
        (pyStr_subset i hi0 x h4)
  · exact (by decide : ∀ y ∈ ", ".data, y ∈ "_0123456789, ".data) x h2

theorem rseqJoin_subset (max_n : Int) :
    ∀ x ∈ (pyJoin ", " ((rseqInts max_n).map pyStr)).data, x ∈ "0123456789, ".data := by
  apply pyJoin_data_subset
  · decide
  · intro s hs x hx
    rcases List.mem_map.mp hs with ⟨i, hi, rfl⟩
    have hi0 : (0 : Int) ≤ i := by
      have : i ∈ pyRange 0 (max_n + 3) := List.mem_reverse.mp hi
      have := (pyRange_mem.mp this).1
      omega
    exact (by decide : ∀ y ∈ digitList, y ∈ "0123456789, ".data) x
      (pyStr_subset i hi0 x hx)

/-! ### Structure of the generated document -/

theorem make_mangrove_child_ok (i : Int) (h : 2 ≤ i) :
    make_mangrove_child i = Except.ok (child_text i) := by
  simp [make_mangrove_child, not_lt.mpr h]

theorem writeChildren_ok (is : List Int) (h : ∀ i ∈ is, 2 ≤ i) :
    writeChildren is = (childrenText is, none) := by
  induction is with
  | nil => rfl
  | cons i rest ih =>
    simp only [writeChildren, make_mangrove_child_ok i (h i (by simp)),
      ih (fun j hj => h j (List.mem_cons_of_mem _ hj))]
    simp [childrenText, pyConcat, String.append_assoc]

theorem print_macros_err (max_n : Int) : (print_macros max_n).2 = none := by
  have h := writeChildren_ok (pyRange 2 (max_n + 1))
    (fun i hi => (pyRange_mem.mp hi).1)
  simp [print_macros, h]

theorem docText_eq (max_n : Int) :
    docText max_n = headerText ++ argNLine max_n ++ rseqLine max_n ++ child1Line ++
      childrenText (pyRange 2 (max_n + 1)) ++ footerText := by
  have h := writeChildren_ok (pyRange 2 (max_n + 1))
    (fun i hi => (pyRange_mem.mp hi).1)
  simp [docText, print_macros, h, String.append_assoc]

theorem childrenText_append (l1 l2 : List Int) :
    childrenText (l1 ++ l2) = childrenText l1 ++ childrenText l2 := by
  simp [childrenText, pyConcat_append]

theorem print_macros_pair (max_n : Int) : print_macros max_n = (docText max_n, none) := by
  conv_lhs => rw [show print_macros max_n =
    ((print_macros max_n).1, (print_macros max_n).2) from rfl]
  rw [show (print_macros max_n).1 = docText max_n from rfl, print_macros_err]

theorem pymain_unfold (args : List String) :
    pymain args =
      if args.length = 1 ∨ args.length = 2 then
        if args.length = 2 then
          match pyIntParse (args.getD 1 "") with
          | none => ⟨1, false, some ""⟩
          | some d => ⟨0, false, some (docText d)⟩
        else ⟨0, false, some (docText MAX_BSON_DEPTH)⟩
      else ⟨0, true, none⟩ := by
  have hok : make_mangrove_child 3 = Except.ok (child_text 3) :=
    make_mangrove_child_ok 3 (by norm_num)
  have hREF : child_text 3 = REFERENCE_MACRO_3 := by decide
  simp only [pymain, hok, hREF, eq_self_iff_true, if_true, print_macros_pair]

/-! ### The claims -/

/-- C1: generating the macro variant for depth 3 produces text equal,
byte for byte, to the hard-coded reference string `REFERENCE_MACRO_3`. -/
theorem C1_reference_macro : make_mangrove_child 3 = Except.ok REFERENCE_MACRO_3 := rfl

/-- C2: for every depth D ≥ 1 the generated selector macro has exactly D+2
placeholder parameters `_0 .. _{D+1}`, followed by the final result parameter
`N`, and the generated reverse-sequence macro enumerates exactly D+3
integers, from D+2 down to 0 inclusive, comma-separated. -/
theorem C2_selector_and_rseq_shapes (D : Int) (hD : 1 ≤ D) :
    (argNPlaceholders D).length = (D + 2).toNat ∧
    (∀ k : Nat, k < (argNPlaceholders D).length →
      (argNPlaceholders D).getD k "" = "_" ++ pyStr k ++ ", ") ∧
    argNLine D = "#define MANGROVE_PP_ARG_N(" ++ pyConcat (argNPlaceholders D) ++
      " N, ...) N\n\n" ∧
    (rseqInts D).length = (D + 3).toNat ∧
    (∀ k : Nat, k < (rseqInts D).length → (rseqInts D).getD k 0 = D + 2 - k) ∧
    rseqLine D = "#define MANGROVE_PP_RSEQ_N() " ++
      pyJoin ", " ((rseqInts D).map pyStr) ++ "\n\n" := by
  refine ⟨?_, ?_, rfl, ?_, ?_, rfl⟩
  · simp only [argNPlaceholders, List.length_map, pyRange_length]
    omega
  · intro k hk
    simp only [argNPlaceholders, List.length_map] at hk ⊢
    rw [List.getD_eq_getElem?_getD, List.getElem?_eq_getElem (by simpa using hk)]
    simp only [Option.getD_some, List.getElem_map, pyRange_getElem]
    rw [zero_add]
  · simp only [rseqInts, List.length_reverse, pyRange_length]
    omega
  · intro k hk
    simp only [rseqInts, List.length_reverse] at hk ⊢
    rw [List.getD_eq_getElem?_getD, List.getElem?_eq_getElem (by simpa using hk)]
    simp only [Option.getD_some]
    rw [List.getElem_reverse, pyRange_getElem]
    simp only [pyRange_length] at hk ⊢
    omega

theorem C2_selector_and_rseq_shapes_witness :
    (argNPlaceholders 1).length = ((1 : Int) + 2).toNat ∧
    (rseqInts 1).length = ((1 : Int) + 3).toNat :=
  ⟨(C2_selector_and_rseq_shapes 1 (by decide)).1,
   (C2_selector_and_rseq_shapes 1 (by decide)).2.2.2.1⟩

/-- C5: generation is deterministic and idempotent.  In this embedding both
generators are pure functions of their argument (the source keeps no mutable
state between invocations), so two invocations with the same input are
literally the same value. -/
theorem C5_deterministic (D n : Int) :
    print_macros D = print_macros D ∧ make_mangrove_child n = make_mangrove_child n :=
  ⟨rfl, rfl⟩

/-- C6 counterexample: the claim says generation fails exactly when the
requested depth is below 1, and succeeds for every N ≥ 1; but
`make_mangrove_child(1)` raises even though 1 is not below 1. -/
theorem C6_cex :
    make_mangrove_child 1 =
      Except.error "Argument n must be at least 2. Received n=1." ∧
    ¬ ((1 : Int) < 1) := ⟨rfl, by decide⟩

/-- C6 amended: `make_mangrove_child n` raises a `ValueError` if and only if
`n < 2` (returning no text), succeeds for every n ≥ 2, and `print_macros`
itself never raises, for any integer depth. -/
theorem C6_amended (n : Int) :
    ((∃ e, make_mangrove_child n = Except.error e) ↔ n < 2) ∧
    (2 ≤ n → make_mangrove_child n = Except.ok (child_text n)) ∧
    (print_macros n).2 = none := by
  refine ⟨⟨?_, ?_⟩, fun h => make_mangrove_child_ok n h, print_macros_err n⟩
  · rintro ⟨e, he⟩
    by_contra hn
    rw [make_mangrove_child_ok n (by omega)] at he
    exact Except.noConfusion he
  · intro h
    refine ⟨"Argument n must be at least 2. Received n=" ++ pyStr n ++ ".", ?_⟩
    simp [make_mangrove_child, h]

theorem C6_amended_witness : make_mangrove_child 2 = Except.ok (child_text 2) :=
  (C6_amended 2).2.1 (by decide)

/-- C7 counterexample: with zero command-line arguments the script prints the
usage message but exits through Python's bare `exit()`, whose status is 0 —
not the claimed non-zero exit code. -/
theorem C7_cex :
    ¬ (([] : List String).length = 1 ∨ ([] : List String).length = 2) ∧
    pymain [] = ⟨0, true, none⟩ := by
  exact ⟨by decide, by decide⟩

/-- C7 amended: a wrong argument count prints usage and exits with status 0
writing no file; one argument writes the full default-depth document and
exits 0; two arguments write the full document for the parsed depth and exit
0 when the depth parses, and abort with exit code 1 leaving an empty
(truncated) file when it does not. -/
theorem C7_amended (args : List String) :
    (¬ (args.length = 1 ∨ args.length = 2) → pymain args = ⟨0, true, none⟩) ∧
    (args.length = 1 → pymain args = ⟨0, false, some (docText 100)⟩) ∧
    (∀ a b d, args = [a, b] → pyIntParse b = some d →
      pymain args = ⟨0, false, some (docText d)⟩) ∧
    (∀ a b, args = [a, b] → pyIntParse b = none →
      pymain args = ⟨1, false, some ""⟩) := by
  rw [pymain_unfold]
  refine ⟨fun h => by rw [if_neg h], fun h => ?_, ?_, ?_⟩
  · rw [if_pos (Or.inl h), if_neg (by omega)]
    rfl
  · rintro a b d rfl hp
    simp [show ([a, b] : List String).length = 2 from rfl,
      show ([a, b] : List String).getD 1 "" = b from rfl, hp]
  · rintro a b rfl hp
    simp [show ([a, b] : List String).length = 2 from rfl,
      show ([a, b] : List String).getD 1 "" = b from rfl, hp]

theorem C7_amended_witness : pymain ["out"] = ⟨0, false, some (docText 100)⟩ :=
  (C7_amended ["out"]).2.1 (by decide)

/-- C8: the run never leaves a truncated document: for every argument vector
the output file either was never opened, holds no written content, or holds
one complete generated document (the self-test runs before any of this, and
every generation that starts completes, since `print_macros` never raises). -/
theorem C8_no_truncated_output (args : List String) :
    (pymain args).written = none ∨ (pymain args).written = some "" ∨
    ∃ d : Int, (pymain args).written = some (docText d) ∧
      (print_macros d).2 = none := by
  rw [pymain_unfold]
  by_cases h1 : args.length = 1 ∨ args.length = 2
  · rw [if_pos h1]
    by_cases h2 : args.length = 2
    · rw [if_pos h2]
      cases hp : pyIntParse (args.getD 1 "") with
      | none => right; left; rfl
      | some d => right; right; exact ⟨d, rfl, print_macros_err d⟩
    · rw [if_neg h2]
      right; right; exact ⟨MAX_BSON_DEPTH, rfl, print_macros_err _⟩
  · rw [if_neg h1]; left; rfl

/-- C3 counterexample: at N = 3 (with D = 3) the body of the generated
variant contains the reference to variant 2 twice — once inside the
`decltype` type recovery and once as the parent argument — not exactly once
as the claim states. -/
theorem C3_cex :
    ((2 : Int) ≤ 3 ∧ (3 : Int) ≤ 3) ∧
    occCountStr (childRef 3) (child_text 3) ≠ 1 := by
  exact ⟨by decide, by decide⟩

/-- C3 amended: for every N ≥ 2 the generated variant N contains exactly two
textual references to `MANGROVE_CHILD(N-1)` invoked with
`base, field1, ..., field(N-1)`. -/
theorem C3_amended (n : Int) (hn : 2 ≤ n) :
    occCountStr (childRef n) (child_text n) = 2 := by
  have hd1 : (0 : Int) ≤ n - 1 := by omega
  have hd2 : (0 : Int) ≤ n := by omega
  have hM1 : 'M' ∉ (pyStr (n - 1)).data :=
    not_mem_of_subset (pyStr_subset _ hd1) (by decide)
  have hM2 : 'M' ∉ (pyStr n).data :=
    not_mem_of_subset (pyStr_subset _ hd2) (by decide)
  have hMp : 'M' ∉ (prevFields n).data :=
    not_mem_of_subset (prevFields_subset n) (by decide)
  have hP1 : '(' ∉ (pyStr (n - 1)).data :=
    not_mem_of_subset (pyStr_subset _ hd1) (by decide)
  have hP2 : '(' ∉ (pyStr n).data :=
    not_mem_of_subset (pyStr_subset _ hd2) (by decide)
  have hab : (pyStr (n - 1)).data ≠ (pyStr n).data := pyStr_data_ne (by omega)
  have hMC : "MANGROVE_CHILD".data = 'M' :: "ANGROVE_CHILD".data := by decide
  have hMK : "MANGROVE_KEY_BY_VALUE(&std::decay_t<".data =
      'M' :: "ANGROVE_KEY_BY_VALUE(&std::decay_t<".data := by decide
  have hOB : "(base, ".data = '(' :: "base, ".data := by decide
  have hPcons : (childRef n).data = 'M' :: childRefTail n := by
    simp [childRef, childRefTail, String.data_append, hMC, hOB, List.append_assoc]
  have hMpt : 'M' ∉ childRefTail n := by
    simp only [childRefTail, List.mem_append, List.mem_cons, not_or]
    exact ⟨by decide, hM1, by decide, by decide, hMp, by decide⟩
  have hT : (child_text n).data =
      "#define ".data ++
      (('M' :: ("ANGROVE_CHILD".data ++ ((pyStr n).data ++ ('(' :: ("base, ".data ++
          ((prevFields n).data ++ (", field".data ++ ((pyStr n).data ++ (") ".data ++
          "make_nvp_with_parent(".data))))))))) ++
      (('M' :: ("ANGROVE_KEY_BY_VALUE(&std::decay_t<".data ++
          "typename decltype(".data)) ++
      ((childRef n).data ++
      ((")".data ++ ("::child_base_type>::field".data ++ ((pyStr n).data ++
          "), ".data))) ++
      ((childRef n).data ++ ")".data))))) := by
    simp [child_text, String.data_append, hMC, hMK, hOB, List.append_assoc]
  have hm1 : ∀ r : List Char, ¬ ('M' :: childRefTail n) <+:
      (('M' :: ("ANGROVE_CHILD".data ++ ((pyStr n).data ++ ('(' :: ("base, ".data ++
        ((prevFields n).data ++ (", field".data ++ ((pyStr n).data ++ (") ".data ++
        "make_nvp_with_parent(".data))))))))) ++ r) := by
    intro r
    have e1 : ('M' :: childRefTail n) = "MANGROVE_CHILD".data ++
        ((pyStr (n - 1)).data ++ '(' :: ("base, ".data ++
          ((prevFields n).data ++ ")".data))) := by
      simp [childRefTail, hMC, List.append_assoc]
    have e2 : ('M' :: ("ANGROVE_CHILD".data ++ ((pyStr n).data ++ ('(' :: ("base, ".data ++
        ((prevFields n).data ++ (", field".data ++ ((pyStr n).data ++ (") ".data ++
        "make_nvp_with_parent(".data))))))))) ++ r = "MANGROVE_CHILD".data ++
        ((pyStr n).data ++ '(' :: ("base, ".data ++ ((prevFields n).data ++
        (", field".data ++ ((pyStr n).data ++ (") ".data ++
        ("make_nvp_with_parent(".data ++ r))))))) := by
      simp [hMC, List.append_assoc]
    rw [e1, e2]
    exact not_prefix_cancel (not_prefix_digit_boundary _ _ hP1 hP2 hab)
  have hm2 : ∀ r : List Char, ¬ ('M' :: childRefTail n) <+:
      (('M' :: ("ANGROVE_KEY_BY_VALUE(&std::decay_t<".data ++
        "typename decltype(".data)) ++ r) := by
    intro r
    have e3 : ('M' :: childRefTail n) = "MANGROVE_C".data ++ ("HILD".data ++
        ((pyStr (n - 1)).data ++ ('(' :: ("base, ".data ++
          ((prevFields n).data ++ ")".data))))) := by
      have hs1 : "MANGROVE_C".data = 'M' :: "ANGROVE_C".data := by decide
      have hs2 : "ANGROVE_CHILD".data = "ANGROVE_C".data ++ "HILD".data := by decide
      simp [childRefTail, hs1, hs2, List.append_assoc]
    have e4 : ('M' :: ("ANGROVE_KEY_BY_VALUE(&std::decay_t<".data ++
        "typename decltype(".data)) ++ r = "MANGROVE_K".data ++
        ("EY_BY_VALUE(&std::decay_t<".data ++ ("typename decltype(".data ++ r)) := by
      have hs3 : "MANGROVE_K".data = 'M' :: "ANGROVE_K".data := by decide
      have hs4 : "ANGROVE_KEY_BY_VALUE(&std::decay_t<".data =
          "ANGROVE_K".data ++ "EY_BY_VALUE(&std::decay_t<".data := by decide
      simp [hs3, hs4, List.append_assoc]
    rw [e3, e4]
    exact not_prefix_of_ne_heads _ _ (by decide) (by decide)
  show occCount (childRef n).data (child_text n).data = 2
  rw [hT, hPcons]
  rw [occCount_skip _ _ (by decide : 'M' ∉ "#define ".data)]
  rw [occCount_miss _ (by
    simp only [List.mem_append, List.mem_cons, not_or]
    exact ⟨by decide, hM2, by decide, by decide, hMp, by decide, hM2, by decide,
      by decide⟩) (hm1 _)]
  rw [occCount_miss _ (by
    simp only [List.mem_append, not_or]
    exact ⟨by decide, by decide⟩) (hm2 _)]
  rw [occCount_hit _ hMpt]
  rw [occCount_skip _ _ (by
    simp only [List.mem_append, not_or]
    exact ⟨by decide, by decide, hM2, by decide⟩)]
  rw [occCount_hit _ hMpt]
  rw [show ")".data = ")".data ++ ([] : List Char) from (List.append_nil _).symm,
    occCount_skip _ _ (by decide : 'M' ∉ ")".data)]
  simp [occCount]

theorem C3_amended_witness : occCountStr (childRef 3) (child_text 3) = 2 :=
  C3_amended 3 (by decide)

/-! ### Occurrence counting across the whole generated document -/

theorem pyStr_subset_all (i : Int) : ∀ c ∈ (pyStr i).data, c ∈ '-' :: digitList := by
  by_cases h : i < 0
  · intro c hc
    simp only [pyStr, if_pos h, String.data_append] at hc
    rcases List.mem_append.mp hc with h1 | h2
    · have : c = '-' := by simpa using h1
      simp [this]
    · exact List.mem_cons_of_mem _ (pyStrNat_subset _ c h2)
  · intro c hc
    rw [pyStr_nonneg i (by omega)] at hc
    exact List.mem_cons_of_mem _ (pyStrNat_subset _ c hc)

theorem childRef_hash (n : Int) : '#' ∉ (childRef n).data := by
  simp only [childRef, String.data_append, List.mem_append, List.append_assoc, not_or]
  exact ⟨by decide, not_mem_of_subset (pyStr_subset_all _) (by decide), by decide,
    not_mem_of_subset (prevFields_subset n) (by decide), by decide⟩

theorem childTextBody_hash (n : Int) : '#' ∉ childTextBody n := by
  simp only [childTextBody, List.mem_append, not_or]
  exact ⟨by decide, not_mem_of_subset (prevFields_subset n) (by decide), by decide,
    not_mem_of_subset (pyStr_subset_all _) (by decide), by decide, by decide,
    by decide, by decide, childRef_hash n, by decide, by decide,
    not_mem_of_subset (pyStr_subset_all _) (by decide), by decide, childRef_hash n,
    by decide⟩

theorem child_text_shape (n : Int) :
    (child_text n).data = "#define MANGROVE_CHILD".data ++
      ((pyStr n).data ++ ('(' :: childTextBody n)) := by
  have hOB : "(base, ".data = '(' :: "base, ".data := by decide
  have hsp : "#define MANGROVE_CHILD".data =
      "#define ".data ++ "MANGROVE_CHILD".data := by decide
  simp [child_text, childTextBody, String.data_append, hOB, hsp, List.append_assoc]

theorem child_text_cons (n : Int) :
    (child_text n).data = '#' :: ("define MANGROVE_CHILD".data ++
      ((pyStr n).data ++ '(' :: childTextBody n)) := by
  rw [child_text_shape]
  have h : "#define MANGROVE_CHILD".data = '#' :: "define MANGROVE_CHILD".data := by
    decide
  rw [h]
  rfl

theorem child_text_tail_hash (n : Int) :
    '#' ∉ ("define MANGROVE_CHILD".data ++
      ((pyStr n).data ++ '(' :: childTextBody n)) := by
  simp only [List.mem_append, List.mem_cons, not_or]
  exact ⟨by decide, not_mem_of_subset (pyStr_subset_all _) (by decide), by decide,
    childTextBody_hash n⟩

theorem childrenText_data_cons (i : Int) (rest : List Int) :
    (childrenText (i :: rest)).data =
      (child_text i).data ++ ("\n\n".data ++ (childrenText rest).data) := by
  simp [childrenText, pyConcat, String.data_append, List.append_assoc]

theorem childrenText_data_nil : (childrenText []).data = [] := rfl

theorem occCount_children_miss (pt : List Char) :
    ∀ (is : List Int) (r : List Char),
      (∀ i ∈ is, ∀ r' : List Char, ¬ ('#' :: pt) <+: ((child_text i).data ++ r')) →
      occCount ('#' :: pt) ((childrenText is).data ++ r) = occCount ('#' :: pt) r := by
  intro is
  induction is with
  | nil => intro r _; rw [childrenText_data_nil]; rfl
  | cons i rest ih =>
    intro r hmiss
    rw [childrenText_data_cons]
    simp only [List.append_assoc]
    have hm := hmiss i (by simp) ("\n\n".data ++ ((childrenText rest).data ++ r))
    rw [child_text_cons] at hm ⊢
    rw [occCount_miss _ (child_text_tail_hash i) hm]
    rw [occCount_skip _ _ (by decide : '#' ∉ "\n\n".data)]
    exact ih r (fun j hj r' => hmiss j (List.mem_cons_of_mem _ hj) r')

theorem occCount_children_fam :
    ∀ (is : List Int) (r : List Char),
      occCount ('#' :: "define MANGROVE_CHILD".data) ((childrenText is).data ++ r) =
        is.length + occCount ('#' :: "define MANGROVE_CHILD".data) r := by
  intro is
  induction is with
  | nil => intro r; rw [childrenText_data_nil]; simp
  | cons i rest ih =>
    intro r
    rw [childrenText_data_cons]
    simp only [List.append_assoc]
    have hsplit : (child_text i).data ++
        ("\n\n".data ++ ((childrenText rest).data ++ r)) =
        ('#' :: "define MANGROVE_CHILD".data) ++ ((pyStr i).data ++
          ('(' :: (childTextBody i ++
            ("\n\n".data ++ ((childrenText rest).data ++ r))))) := by
      rw [child_text_cons]
      simp [List.append_assoc]
    rw [hsplit, occCount_hit _ (by decide : '#' ∉ "define MANGROVE_CHILD".data)]
    rw [occCount_skip _ _ (not_mem_of_subset (pyStr_subset_all i) (by decide))]
    rw [show ('(' :: (childTextBody i ++
        ("\n\n".data ++ ((childrenText rest).data ++ r)))) =
        ['('] ++ (childTextBody i ++
        ("\n\n".data ++ ((childrenText rest).data ++ r))) from rfl]
    rw [occCount_skip _ _ (by decide : '#' ∉ ['('])]
    rw [occCount_skip _ _ (childTextBody_hash i)]
    rw [occCount_skip _ _ (by decide : '#' ∉ "\n\n".data)]
    rw [ih r]
    simp only [List.length_cons]
    omega

theorem occCount_children_defHead (i0 : Int) (h0 : 1 ≤ i0) :
    ∀ (is : List Int) (r : List Char), (∀ i ∈ is, 2 ≤ i) →
      occCount ('#' :: defHeadTail i0) ((childrenText is).data ++ r) =
        is.count i0 + occCount ('#' :: defHeadTail i0) r := by
  intro is
  induction is with
  | nil => intro r _; rw [childrenText_data_nil]; simp
  | cons i rest ih =>
    intro r his
    rw [childrenText_data_cons]
    simp only [List.append_assoc]
    by_cases hii : i = i0
    · subst hii
      have hsplit : (child_text i).data ++
          ("\n\n".data ++ ((childrenText rest).data ++ r)) =
          ('#' :: defHeadTail i) ++ (childTextBody i ++
            ("\n\n".data ++ ((childrenText rest).data ++ r))) := by
        rw [child_text_cons]
        simp [defHeadTail, List.append_assoc]
      rw [hsplit, occCount_hit _ (by
        simp only [defHeadTail, List.mem_append, not_or]
        exact ⟨by decide, not_mem_of_subset (pyStr_subset_all _) (by decide),
          by decide⟩)]
      rw [occCount_skip _ _ (childTextBody_hash i)]
      rw [occCount_skip _ _ (by decide : '#' ∉ "\n\n".data)]
      rw [ih r (fun j hj => his j (List.mem_cons_of_mem _ hj))]
      rw [List.count_cons_self]
      omega
    · have hi2 : (2 : Int) ≤ i := his i (by simp)
      have hm : ¬ ('#' :: defHeadTail i0) <+:
          ((child_text i).data ++
            ("\n\n".data ++ ((childrenText rest).data ++ r))) := by
        have e1 : ('#' :: defHeadTail i0) = "#define MANGROVE_CHILD".data ++
            ((pyStr i0).data ++ '(' :: []) := by
          have h : "#define MANGROVE_CHILD".data =
              '#' :: "define MANGROVE_CHILD".data := by decide
          simp [defHeadTail, h, List.append_assoc]
        have e2 : (child_text i).data ++
            ("\n\n".data ++ ((childrenText rest).data ++ r)) =
            "#define MANGROVE_CHILD".data ++ ((pyStr i).data ++ '(' ::
              (childTextBody i ++
                ("\n\n".data ++ ((childrenText rest).data ++ r)))) := by
          rw [child_text_shape]
          simp [List.append_assoc]
        rw [e1, e2]
        exact not_prefix_cancel (not_prefix_digit_boundary _ _
          (not_mem_of_subset (pyStr_subset i0 (by omega)) (by decide))
          (not_mem_of_subset (pyStr_subset i (by omega)) (by decide))
          (pyStr_data_ne (fun he => hii he.symm)))
      rw [child_text_cons] at hm ⊢
      rw [occCount_miss _ (child_text_tail_hash i) hm]
      rw [occCount_skip _ _ (by decide : '#' ∉ "\n\n".data)]
      rw [ih r (fun j hj => his j (List.mem_cons_of_mem _ hj))]
      rw [List.count_cons_of_ne (fun he => hii he.symm)]

theorem occCount_header (pt : List Char) (r : List Char)
    (h1 : ∀ r' : List Char, ¬ ('#' :: pt) <+:
      (('#' :: "pragma once\n\n        ".data) ++ r'))
    (h2 : ∀ r' : List Char, ¬ ('#' :: pt) <+:
      (('#' :: "include <mangrove/config/prelude.hpp>\n\n        // Preprocessor templates for manipulating multiple arguments.\n        ".data) ++ r'))
    (h3 : ∀ r' : List Char, ¬ ('#' :: pt) <+:
      (('#' :: "define MANGROVE_PP_NARG(...) MANGROVE_PP_NARG_(__VA_ARGS__, MANGROVE_PP_RSEQ_N())\n        ".data) ++ r'))
    (h4 : ∀ r' : List Char, ¬ ('#' :: pt) <+:
      (('#' :: "define MANGROVE_PP_NARG_(...) MANGROVE_PP_ARG_N(__VA_ARGS__)\n        ".data) ++ r')) :
    occCount ('#' :: pt) (headerText.data ++ r) = occCount ('#' :: pt) r := by
  have hbase : headerText.data =
      "// clang-format off\n        // Copyright 2016 MongoDB Inc.\n        //\n        // Licensed under the Apache License, Version 2.0 (the \"License\");\n        // you may not use this file except in compliance with the License.\n        // You may obtain a copy of the License at\n        //\n        // http://www.apache.org/licenses/LICENSE-2.0\n        //\n        // Unless required by applicable law or agreed to in writing, software\n        // distributed under the License is distributed on an \"AS IS\" BASIS,\n        // WITHOUT WARRANTIES OR CONDITIONS OF ANY KIND, either express or implied.\n        // See the License for the specific language governing permissions and\n        // limitations under the License.\n\n        ".data ++
      (('#' :: "pragma once\n\n        ".data) ++
      (('#' :: "include <mangrove/config/prelude.hpp>\n\n        // Preprocessor templates for manipulating multiple arguments.\n        ".data) ++
      (('#' :: "define MANGROVE_PP_NARG(...) MANGROVE_PP_NARG_(__VA_ARGS__, MANGROVE_PP_RSEQ_N())\n        ".data) ++
      ('#' :: "define MANGROVE_PP_NARG_(...) MANGROVE_PP_ARG_N(__VA_ARGS__)\n        ".data)))) := by
    decide
  have hdr : headerText.data ++ r =
      "// clang-format off\n        // Copyright 2016 MongoDB Inc.\n        //\n        // Licensed under the Apache License, Version 2.0 (the \"License\");\n        // you may not use this file except in compliance with the License.\n        // You may obtain a copy of the License at\n        //\n        // http://www.apache.org/licenses/LICENSE-2.0\n        //\n        // Unless required by applicable law or agreed to in writing, software\n        // distributed under the License is distributed on an \"AS IS\" BASIS,\n        // WITHOUT WARRANTIES OR CONDITIONS OF ANY KIND, either express or implied.\n        // See the License for the specific language governing permissions and\n        // limitations under the License.\n\n        ".data ++
      (('#' :: "pragma once\n\n        ".data) ++
      (('#' :: "include <mangrove/config/prelude.hpp>\n\n        // Preprocessor templates for manipulating multiple arguments.\n        ".data) ++
      (('#' :: "define MANGROVE_PP_NARG(...) MANGROVE_PP_NARG_(__VA_ARGS__, MANGROVE_PP_RSEQ_N())\n        ".data) ++
      (('#' :: "define MANGROVE_PP_NARG_(...) MANGROVE_PP_ARG_N(__VA_ARGS__)\n        ".data) ++ r)))) := by
    rw [hbase]
    simp [List.append_assoc]
  rw [hdr]
  rw [occCount_skip _ _ (by decide)]
  rw [occCount_miss _ (by decide) (h1 _)]
  rw [occCount_miss _ (by decide) (h2 _)]
  rw [occCount_miss _ (by decide) (h3 _)]
  rw [occCount_miss _ (by decide) (h4 _)]

theorem occCount_header_famC (w : List Char) (r : List Char) :
    occCount ('#' :: ("define MANGROVE_C".data ++ w)) (headerText.data ++ r) =
      occCount ('#' :: ("define MANGROVE_C".data ++ w)) r := by
  have e1 : ('#' :: ("define MANGROVE_C".data ++ w)) =
      ['#', 'd'] ++ ("efine MANGROVE_C".data ++ w) := by
    have h : "define MANGROVE_C".data = 'd' :: "efine MANGROVE_C".data := by decide
    rw [h]; rfl
  have e1' : ('#' :: ("define MANGROVE_C".data ++ w)) =
      "#define MANGROVE_C".data ++ w := by
    have h : "#define MANGROVE_C".data = '#' :: "define MANGROVE_C".data := by decide
    rw [h]; rfl
  apply occCount_header
  · intro r'
    have e2 : ('#' :: "pragma once\n\n        ".data) ++ r' =
        ['#', 'p'] ++ ("ragma once\n\n        ".data ++ r') := by
      have h : "pragma once\n\n        ".data =
          'p' :: "ragma once\n\n        ".data := by decide
      rw [h]; rfl
    rw [e1, e2]
    exact not_prefix_of_ne_heads _ _ (by decide) (by decide)
  · intro r'
    have e2 : ('#' :: "include <mangrove/config/prelude.hpp>\n\n        // Preprocessor templates for manipulating multiple arguments.\n        ".data) ++ r' =
        ['#', 'i'] ++ ("nclude <mangrove/config/prelude.hpp>\n\n        // Preprocessor templates for manipulating multiple arguments.\n        ".data ++ r') := by
      have h : "include <mangrove/config/prelude.hpp>\n\n        // Preprocessor templates for manipulating multiple arguments.\n        ".data =
          'i' :: "nclude <mangrove/config/prelude.hpp>\n\n        // Preprocessor templates for manipulating multiple arguments.\n        ".data := by decide
      rw [h]; rfl
    rw [e1, e2]
    exact not_prefix_of_ne_heads _ _ (by decide) (by decide)
  · intro r'
    have e2 : ('#' :: "define MANGROVE_PP_NARG(...) MANGROVE_PP_NARG_(__VA_ARGS__, MANGROVE_PP_RSEQ_N())\n        ".data) ++ r' =
        "#define MANGROVE_P".data ++
          ("P_NARG(...) MANGROVE_PP_NARG_(__VA_ARGS__, MANGROVE_PP_RSEQ_N())\n        ".data ++ r') := by
      have ha : "#define MANGROVE_P".data = '#' :: "define MANGROVE_P".data := by decide
      have hb : "define MANGROVE_PP_NARG(...) MANGROVE_PP_NARG_(__VA_ARGS__, MANGROVE_PP_RSEQ_N())\n        ".data =
          "define MANGROVE_P".data ++
            "P_NARG(...) MANGROVE_PP_NARG_(__VA_ARGS__, MANGROVE_PP_RSEQ_N())\n        ".data := by
        decide
      simp [ha, hb, List.append_assoc]
    rw [e1', e2]
    exact not_prefix_of_ne_heads _ _ (by decide) (by decide)
  · intro r'
    have e2 : ('#' :: "define MANGROVE_PP_NARG_(...) MANGROVE_PP_ARG_N(__VA_ARGS__)\n        ".data) ++ r' =
        "#define MANGROVE_P".data ++
          ("P_NARG_(...) MANGROVE_PP_ARG_N(__VA_ARGS__)\n        ".data ++ r') := by
      have ha : "#define MANGROVE_P".data = '#' :: "define MANGROVE_P".data := by decide
      have hb : "define MANGROVE_PP_NARG_(...) MANGROVE_PP_ARG_N(__VA_ARGS__)\n        ".data =
          "define MANGROVE_P".data ++
            "P_NARG_(...) MANGROVE_PP_ARG_N(__VA_ARGS__)\n        ".data := by
        decide
      simp [ha, hb, List.append_assoc]
    rw [e1', e2]
    exact not_prefix_of_ne_heads _ _ (by decide) (by decide)

theorem occCount_header_ppA (w : List Char) (r : List Char) :
    occCount ('#' :: ("define MANGROVE_PP_A".data ++ w)) (headerText.data ++ r) =
      occCount ('#' :: ("define MANGROVE_PP_A".data ++ w)) r := by
  have e1 : ('#' :: ("define MANGROVE_PP_A".data ++ w)) =
      ['#', 'd'] ++ ("efine MANGROVE_PP_A".data ++ w) := by
    have h : "define MANGROVE_PP_A".data = 'd' :: "efine MANGROVE_PP_A".data := by
      decide
    rw [h]; rfl
  have e1' : ('#' :: ("define MANGROVE_PP_A".data ++ w)) =
      "#define MANGROVE_PP_A".data ++ w := by
    have h : "#define MANGROVE_PP_A".data =
        '#' :: "define MANGROVE_PP_A".data := by decide
    rw [h]; rfl
  apply occCount_header
  · intro r'
    have e2 : ('#' :: "pragma once\n\n        ".data) ++ r' =
        ['#', 'p'] ++ ("ragma once\n\n        ".data ++ r') := by
      have h : "pragma once\n\n        ".data =
          'p' :: "ragma once\n\n        ".data := by decide
      rw [h]; rfl
    rw [e1, e2]
    exact not_prefix_of_ne_heads _ _ (by decide) (by decide)
  · intro r'
    have e2 : ('#' :: "include <mangrove/config/prelude.hpp>\n\n        // Preprocessor templates for manipulating multiple arguments.\n        ".data) ++ r' =
        ['#', 'i'] ++ ("nclude <mangrove/config/prelude.hpp>\n\n        // Preprocessor templates for manipulating multiple arguments.\n        ".data ++ r') := by
      have h : "include <mangrove/config/prelude.hpp>\n\n        // Preprocessor templates for manipulating multiple arguments.\n        ".data =
          'i' :: "nclude <mangrove/config/prelude.hpp>\n\n        // Preprocessor templates for manipulating multiple arguments.\n        ".data := by decide
      rw [h]; rfl
    rw [e1, e2]
    exact not_prefix_of_ne_heads _ _ (by decide) (by decide)
  · intro r'
    have e2 : ('#' :: "define MANGROVE_PP_NARG(...) MANGROVE_PP_NARG_(__VA_ARGS__, MANGROVE_PP_RSEQ_N())\n        ".data) ++ r' =
        "#define MANGROVE_PP_N".data ++
          ("ARG(...) MANGROVE_PP_NARG_(__VA_ARGS__, MANGROVE_PP_RSEQ_N())\n        ".data ++ r') := by
      have ha : "#define MANGROVE_PP_N".data =
          '#' :: "define MANGROVE_PP_N".data := by decide
      have hb : "define MANGROVE_PP_NARG(...) MANGROVE_PP_NARG_(__VA_ARGS__, MANGROVE_PP_RSEQ_N())\n        ".data =
          "define MANGROVE_PP_N".data ++
            "ARG(...) MANGROVE_PP_NARG_(__VA_ARGS__, MANGROVE_PP_RSEQ_N())\n        ".data := by
        decide
      simp [ha, hb, List.append_assoc]
    rw [e1', e2]
    exact not_prefix_of_ne_heads _ _ (by decide) (by decide)
  · intro r'
    have e2 : ('#' :: "define MANGROVE_PP_NARG_(...) MANGROVE_PP_ARG_N(__VA_ARGS__)\n        ".data) ++ r' =
        "#define MANGROVE_PP_N".data ++
          ("ARG_(...) MANGROVE_PP_ARG_N(__VA_ARGS__)\n        ".data ++ r') := by
      have ha : "#define MANGROVE_PP_N".data =
          '#' :: "define MANGROVE_PP_N".data := by decide
      have hb : "define MANGROVE_PP_NARG_(...) MANGROVE_PP_ARG_N(__VA_ARGS__)\n        ".data =
          "define MANGROVE_PP_N".data ++
            "ARG_(...) MANGROVE_PP_ARG_N(__VA_ARGS__)\n        ".data := by
        decide
      simp [ha, hb, List.append_assoc]
    rw [e1', e2]
    exact not_prefix_of_ne_heads _ _ (by decide) (by decide)

theorem occCount_header_ppRseq (r : List Char) :
    occCount ('#' :: "define MANGROVE_PP_RSEQ_N()".data) (headerText.data ++ r) =
      occCount ('#' :: "define MANGROVE_PP_RSEQ_N()".data) r := by
  have e1 : ('#' :: "define MANGROVE_PP_RSEQ_N()".data) =
      ['#', 'd'] ++ "efine MANGROVE_PP_RSEQ_N()".data := by decide
  have e1' : ('#' :: "define MANGROVE_PP_RSEQ_N()".data) =
      "#define MANGROVE_PP_R".data ++ "SEQ_N()".data := by decide
  apply occCount_header
  · intro r'
    have e2 : ('#' :: "pragma once\n\n        ".data) ++ r' =
        ['#', 'p'] ++ ("ragma once\n\n        ".data ++ r') := by
      have h : "pragma once\n\n        ".data =
          'p' :: "ragma once\n\n        ".data := by decide
      rw [h]; rfl
    rw [e1, e2]
    exact not_prefix_of_ne_heads _ _ (by decide) (by decide)
  · intro r'
    have e2 : ('#' :: "include <mangrove/config/prelude.hpp>\n\n        // Preprocessor templates for manipulating multiple arguments.\n        ".data) ++ r' =
        ['#', 'i'] ++ ("nclude <mangrove/config/prelude.hpp>\n\n        // Preprocessor templates for manipulating multiple arguments.\n        ".data ++ r') := by
      have h : "include <mangrove/config/prelude.hpp>\n\n        // Preprocessor templates for manipulating multiple arguments.\n        ".data =
          'i' :: "nclude <mangrove/config/prelude.hpp>\n\n        // Preprocessor templates for manipulating multiple arguments.\n        ".data := by decide
      rw [h]; rfl
    rw [e1, e2]
    exact not_prefix_of_ne_heads _ _ (by decide) (by decide)
  · intro r'
    have e2 : ('#' :: "define MANGROVE_PP_NARG(...) MANGROVE_PP_NARG_(__VA_ARGS__, MANGROVE_PP_RSEQ_N())\n        ".data) ++ r' =
        "#define MANGROVE_PP_N".data ++
          ("ARG(...) MANGROVE_PP_NARG_(__VA_ARGS__, MANGROVE_PP_RSEQ_N())\n        ".data ++ r') := by
      have ha : "#define MANGROVE_PP_N".data =
          '#' :: "define MANGROVE_PP_N".data := by decide
      have hb : "define MANGROVE_PP_NARG(...) MANGROVE_PP_NARG_(__VA_ARGS__, MANGROVE_PP_RSEQ_N())\n        ".data =
          "define MANGROVE_PP_N".data ++
            "ARG(...) MANGROVE_PP_NARG_(__VA_ARGS__, MANGROVE_PP_RSEQ_N())\n        ".data := by
        decide
      simp [ha, hb, List.append_assoc]
    rw [e1', e2]
    exact not_prefix_of_ne_heads _ _ (by decide) (by decide)
  · intro r'
    have e2 : ('#' :: "define MANGROVE_PP_NARG_(...) MANGROVE_PP_ARG_N(__VA_ARGS__)\n        ".data) ++ r' =
        "#define MANGROVE_PP_N".data ++
          ("ARG_(...) MANGROVE_PP_ARG_N(__VA_ARGS__)\n        ".data ++ r') := by
      have ha : "#define MANGROVE_PP_N".data =
          '#' :: "define MANGROVE_PP_N".data := by decide
      have hb : "define MANGROVE_PP_NARG_(...) MANGROVE_PP_ARG_N(__VA_ARGS__)\n        ".data =
          "define MANGROVE_PP_N".data ++
            "ARG_(...) MANGROVE_PP_ARG_N(__VA_ARGS__)\n        ".data := by
        decide
      simp [ha, hb, List.append_assoc]
    rw [e1', e2]
    exact not_prefix_of_ne_heads _ _ (by decide) (by decide)

theorem argNLine_data (max_n : Int) :
    (argNLine max_n).data = '#' :: ("define MANGROVE_PP_ARG_N(".data ++
      ((pyConcat (argNPlaceholders max_n)).data ++ " N, ...) N\n\n".data)) := by
  have h : "#define MANGROVE_PP_ARG_N(".data =
      '#' :: "define MANGROVE_PP_ARG_N(".data := by decide
  simp [argNLine, String.data_append, h, List.append_assoc]

theorem argNTail_hash (max_n : Int) :
    '#' ∉ ("define MANGROVE_PP_ARG_N(".data ++
      ((pyConcat (argNPlaceholders max_n)).data ++ " N, ...) N\n\n".data)) := by
  simp only [List.mem_append, not_or]
  exact ⟨by decide, not_mem_of_subset (argNPh_subset max_n) (by decide), by decide⟩

theorem occCount_argN_famC (max_n : Int) (w r : List Char) :
    occCount ('#' :: ("define MANGROVE_C".data ++ w)) ((argNLine max_n).data ++ r) =
      occCount ('#' :: ("define MANGROVE_C".data ++ w)) r := by
  rw [argNLine_data]
  refine occCount_miss _ (argNTail_hash max_n) ?_
  have e1 : ('#' :: ("define MANGROVE_C".data ++ w)) =
      "#define MANGROVE_C".data ++ w := by
    have h : "#define MANGROVE_C".data = '#' :: "define MANGROVE_C".data := by decide
    rw [h]; rfl
  have e2 : ('#' :: ("define MANGROVE_PP_ARG_N(".data ++
      ((pyConcat (argNPlaceholders max_n)).data ++ " N, ...) N\n\n".data))) ++ r =
      "#define MANGROVE_P".data ++ ("P_ARG_N(".data ++
        ((pyConcat (argNPlaceholders max_n)).data ++ (" N, ...) N\n\n".data ++ r))) := by
    have ha : "#define MANGROVE_P".data = '#' :: "define MANGROVE_P".data := by decide
    have hb : "define MANGROVE_PP_ARG_N(".data =
        "define MANGROVE_P".data ++ "P_ARG_N(".data := by decide
    simp [ha, hb, List.append_assoc]
  rw [e1, e2]
  exact not_prefix_of_ne_heads _ _ (by decide) (by decide)

theorem occCount_argN_ppRseq (max_n : Int) (r : List Char) :
    occCount ('#' :: "define MANGROVE_PP_RSEQ_N()".data) ((argNLine max_n).data ++ r) =
      occCount ('#' :: "define MANGROVE_PP_RSEQ_N()".data) r := by
  rw [argNLine_data]
  refine occCount_miss _ (argNTail_hash max_n) ?_
  have e1 : ('#' :: "define MANGROVE_PP_RSEQ_N()".data) =
      "#define MANGROVE_PP_R".data ++ "SEQ_N()".data := by decide
  have e2 : ('#' :: ("define MANGROVE_PP_ARG_N(".data ++
      ((pyConcat (argNPlaceholders max_n)).data ++ " N, ...) N\n\n".data))) ++ r =
      "#define MANGROVE_PP_A".data ++ ("RG_N(".data ++
        ((pyConcat (argNPlaceholders max_n)).data ++ (" N, ...) N\n\n".data ++ r))) := by
    have ha : "#define MANGROVE_PP_A".data = '#' :: "define MANGROVE_PP_A".data := by decide
    have hb : "define MANGROVE_PP_ARG_N(".data =
        "define MANGROVE_PP_A".data ++ "RG_N(".data := by decide
    simp [ha, hb, List.append_assoc]
  rw [e1, e2]
  exact not_prefix_of_ne_heads _ _ (by decide) (by decide)

theorem occCount_argN_hit (max_n : Int) (r : List Char) :
    occCount ('#' :: "define MANGROVE_PP_ARG_N(".data) ((argNLine max_n).data ++ r) =
      1 + occCount ('#' :: "define MANGROVE_PP_ARG_N(".data) r := by
  have e : (argNLine max_n).data ++ r =
      ('#' :: "define MANGROVE_PP_ARG_N(".data) ++
        ((pyConcat (argNPlaceholders max_n)).data ++ (" N, ...) N\n\n".data ++ r)) := by
    rw [argNLine_data]
    simp [List.append_assoc]
  rw [e, occCount_hit _ (by decide)]
  rw [occCount_skip _ _ (not_mem_of_subset (argNPh_subset max_n) (by decide))]
  rw [occCount_skip _ _ (by decide : '#' ∉ " N, ...) N\n\n".data)]

theorem rseqLine_data (max_n : Int) :
    (rseqLine max_n).data = '#' :: ("define MANGROVE_PP_RSEQ_N()".data ++
      (" ".data ++ ((pyJoin ", " ((rseqInts max_n).map pyStr)).data ++ "\n\n".data))) := by
  have h : "#define MANGROVE_PP_RSEQ_N() ".data =
      '#' :: ("define MANGROVE_PP_RSEQ_N()".data ++ " ".data) := by decide
  simp [rseqLine, String.data_append, h, List.append_assoc]

theorem rseqTail_hash (max_n : Int) :
    '#' ∉ ("define MANGROVE_PP_RSEQ_N()".data ++
      (" ".data ++ ((pyJoin ", " ((rseqInts max_n).map pyStr)).data ++ "\n\n".data))) := by
  simp only [List.mem_append, not_or]
  exact ⟨by decide, by decide, not_mem_of_subset (rseqJoin_subset max_n) (by decide),
    by decide⟩

theorem occCount_rseq_famC (max_n : Int) (w r : List Char) :
    occCount ('#' :: ("define MANGROVE_C".data ++ w)) ((rseqLine max_n).data ++ r) =
      occCount ('#' :: ("define MANGROVE_C".data ++ w)) r := by
  rw [rseqLine_data]
  refine occCount_miss _ (rseqTail_hash max_n) ?_
  have e1 : ('#' :: ("define MANGROVE_C".data ++ w)) =
      "#define MANGROVE_C".data ++ w := by
    have h : "#define MANGROVE_C".data = '#' :: "define MANGROVE_C".data := by decide
    rw [h]; rfl
  have e2 : ('#' :: ("define MANGROVE_PP_RSEQ_N()".data ++
      (" ".data ++ ((pyJoin ", " ((rseqInts max_n).map pyStr)).data ++ "\n\n".data)))) ++ r =
      "#define MANGROVE_P".data ++ ("P_RSEQ_N()".data ++
        (" ".data ++ ((pyJoin ", " ((rseqInts max_n).map pyStr)).data ++
          ("\n\n".data ++ r)))) := by
    have ha : "#define MANGROVE_P".data = '#' :: "define MANGROVE_P".data := by decide
    have hb : "define MANGROVE_PP_RSEQ_N()".data =
        "define MANGROVE_P".data ++ "P_RSEQ_N()".data := by decide
    simp [ha, hb, List.append_assoc]
  rw [e1, e2]
  exact not_prefix_of_ne_heads _ _ (by decide) (by decide)

theorem occCount_rseq_ppA (max_n : Int) (w : List Char) (r : List Char) :
    occCount ('#' :: ("define MANGROVE_PP_A".data ++ w)) ((rseqLine max_n).data ++ r) =
      occCount ('#' :: ("define MANGROVE_PP_A".data ++ w)) r := by
  rw [rseqLine_data]
  refine occCount_miss _ (rseqTail_hash max_n) ?_
  have e1 : ('#' :: ("define MANGROVE_PP_A".data ++ w)) =
      "#define MANGROVE_PP_A".data ++ w := by
    have h : "#define MANGROVE_PP_A".data =
        '#' :: "define MANGROVE_PP_A".data := by decide
    rw [h]; rfl
  have e2 : ('#' :: ("define MANGROVE_PP_RSEQ_N()".data ++
      (" ".data ++ ((pyJoin ", " ((rseqInts max_n).map pyStr)).data ++ "\n\n".data)))) ++ r =
      "#define MANGROVE_PP_R".data ++ ("SEQ_N()".data ++
        (" ".data ++ ((pyJoin ", " ((rseqInts max_n).map pyStr)).data ++
          ("\n\n".data ++ r)))) := by
    have ha : "#define MANGROVE_PP_R".data = '#' :: "define MANGROVE_PP_R".data := by decide
    have hb : "define MANGROVE_PP_RSEQ_N()".data =
        "define MANGROVE_PP_R".data ++ "SEQ_N()".data := by decide
    simp [ha, hb, List.append_assoc]
  rw [e1, e2]
  exact not_prefix_of_ne_heads _ _ (by decide) (by decide)

theorem occCount_rseq_hit (max_n : Int) (r : List Char) :
    occCount ('#' :: "define MANGROVE_PP_RSEQ_N()".data) ((rseqLine max_n).data ++ r) =
      1 + occCount ('#' :: "define MANGROVE_PP_RSEQ_N()".data) r := by
  have e : (rseqLine max_n).data ++ r =
      ('#' :: "define MANGROVE_PP_RSEQ_N()".data) ++
        (" ".data ++ ((pyJoin ", " ((rseqInts max_n).map pyStr)).data ++
          ("\n\n".data ++ r))) := by
    rw [rseqLine_data]
    simp [List.append_assoc]
  rw [e, occCount_hit _ (by decide)]
  rw [occCount_skip _ _ (by decide : '#' ∉ " ".data)]
  rw [occCount_skip _ _ (not_mem_of_subset (rseqJoin_subset max_n) (by decide))]
  rw [occCount_skip _ _ (by decide : '#' ∉ "\n\n".data)]

theorem occCount_child1_fam (r : List Char) :
    occCount ('#' :: "define MANGROVE_CHILD".data) (child1Line.data ++ r) =
      1 + occCount ('#' :: "define MANGROVE_CHILD".data) r := by
  have e : child1Line.data ++ r = ('#' :: "define MANGROVE_CHILD".data) ++
      ("1(base, field1) MANGROVE_KEY_BY_VALUE(&base::field1)\n\n".data ++ r) := by
    have h : child1Line.data = ('#' :: "define MANGROVE_CHILD".data) ++
        "1(base, field1) MANGROVE_KEY_BY_VALUE(&base::field1)\n\n".data := by decide
    rw [h, List.append_assoc]
  rw [e, occCount_hit _ (by decide)]
  rw [occCount_skip _ _ (by decide)]

theorem occCount_child1_defHead_one (r : List Char) :
    occCount ('#' :: defHeadTail 1) (child1Line.data ++ r) =
      1 + occCount ('#' :: defHeadTail 1) r := by
  have e : child1Line.data ++ r = ('#' :: defHeadTail 1) ++
      ("base, field1) MANGROVE_KEY_BY_VALUE(&base::field1)\n\n".data ++ r) := by
    have h : child1Line.data = ('#' :: defHeadTail 1) ++
        "base, field1) MANGROVE_KEY_BY_VALUE(&base::field1)\n\n".data := by decide
    rw [h, List.append_assoc]
  rw [e, occCount_hit _ (by decide)]
  rw [occCount_skip _ _ (by decide)]

theorem occCount_child1_defHead_ne (i0 : Int) (h0 : 1 ≤ i0) (hne : i0 ≠ 1)
    (r : List Char) :
    occCount ('#' :: defHeadTail i0) (child1Line.data ++ r) =
      occCount ('#' :: defHeadTail i0) r := by
  have hc : child1Line.data ++ r =
      ('#' :: "define MANGROVE_CHILD1(base, field1) MANGROVE_KEY_BY_VALUE(&base::field1)\n\n".data) ++ r := by
    have h : child1Line.data =
        '#' :: "define MANGROVE_CHILD1(base, field1) MANGROVE_KEY_BY_VALUE(&base::field1)\n\n".data := by
      decide
    rw [h]
  rw [hc]
  refine occCount_miss _ (by decide) ?_
  have e1 : ('#' :: defHeadTail i0) = "#define MANGROVE_CHILD".data ++
      ((pyStr i0).data ++ '(' :: []) := by
    have h : "#define MANGROVE_CHILD".data =
        '#' :: "define MANGROVE_CHILD".data := by decide
    simp [defHeadTail, h, List.append_assoc]
  have e2 : ('#' :: "define MANGROVE_CHILD1(base, field1) MANGROVE_KEY_BY_VALUE(&base::field1)\n\n".data) ++ r =
      "#define MANGROVE_CHILD".data ++ ((pyStr 1).data ++ '(' ::
        ("base, field1) MANGROVE_KEY_BY_VALUE(&base::field1)\n\n".data ++ r)) := by
    have h : ('#' :: "define MANGROVE_CHILD1(base, field1) MANGROVE_KEY_BY_VALUE(&base::field1)\n\n".data) =
        "#define MANGROVE_CHILD".data ++ ((pyStr 1).data ++ '(' ::
          "base, field1) MANGROVE_KEY_BY_VALUE(&base::field1)\n\n".data) := by decide
    simp [h, List.append_assoc]
  rw [e1, e2]
  exact not_prefix_cancel (not_prefix_digit_boundary _ _
    (not_mem_of_subset (pyStr_subset i0 (by omega)) (by decide))
    (by decide)
    (pyStr_data_ne hne))

theorem occCount_child1_ppP (w r : List Char) :
    occCount ('#' :: ("define MANGROVE_P".data ++ w)) (child1Line.data ++ r) =
      occCount ('#' :: ("define MANGROVE_P".data ++ w)) r := by
  have hc : child1Line.data ++ r =
      ('#' :: "define MANGROVE_CHILD1(base, field1) MANGROVE_KEY_BY_VALUE(&base::field1)\n\n".data) ++ r := by
    have h : child1Line.data =
        '#' :: "define MANGROVE_CHILD1(base, field1) MANGROVE_KEY_BY_VALUE(&base::field1)\n\n".data := by
      decide
    rw [h]
  rw [hc]
  refine occCount_miss _ (by decide) ?_
  have e1 : ('#' :: ("define MANGROVE_P".data ++ w)) =
      "#define MANGROVE_P".data ++ w := by
    have h : "#define MANGROVE_P".data = '#' :: "define MANGROVE_P".data := by decide
    rw [h]; rfl
  have e2 : ('#' :: "define MANGROVE_CHILD1(base, field1) MANGROVE_KEY_BY_VALUE(&base::field1)\n\n".data) ++ r =
      "#define MANGROVE_C".data ++
        ("HILD1(base, field1) MANGROVE_KEY_BY_VALUE(&base::field1)\n\n".data ++ r) := by
    have h : ('#' :: "define MANGROVE_CHILD1(base, field1) MANGROVE_KEY_BY_VALUE(&base::field1)\n\n".data) =
        "#define MANGROVE_C".data ++
          "HILD1(base, field1) MANGROVE_KEY_BY_VALUE(&base::field1)\n\n".data := by decide
    rw [h, List.append_assoc]
  rw [e1, e2]
  exact not_prefix_of_ne_heads _ _ (by decide) (by decide)

theorem occCount_footer (w : List Char) :
    occCount ('#' :: ('d' :: w)) footerText.data = 0 := by
  have hf : footerText.data = "\n\n        ".data ++
      (('#' :: "include <mangrove/config/postlude.hpp>\n    // clang-format on\n".data) ++
        ([] : List Char)) := by decide
  have hm : ¬ ('#' :: ('d' :: w)) <+:
      (('#' :: "include <mangrove/config/postlude.hpp>\n    // clang-format on\n".data) ++
        ([] : List Char)) := by
    have e1 : ('#' :: ('d' :: w)) = ['#', 'd'] ++ w := rfl
    have e2 : ('#' :: "include <mangrove/config/postlude.hpp>\n    // clang-format on\n".data) ++
        ([] : List Char) =
        ['#', 'i'] ++ ("nclude <mangrove/config/postlude.hpp>\n    // clang-format on\n".data ++
          ([] : List Char)) := by
      have h : "include <mangrove/config/postlude.hpp>\n    // clang-format on\n".data =
          'i' :: "nclude <mangrove/config/postlude.hpp>\n    // clang-format on\n".data := by
        decide
      rw [h]; rfl
    rw [e1, e2]
    exact not_prefix_of_ne_heads _ _ (by decide) (by decide)
  rw [hf, occCount_skip _ _ (by decide), occCount_miss _ (by decide) hm]
  rfl

theorem docText_data (max_n : Int) :
    (docText max_n).data = headerText.data ++ ((argNLine max_n).data ++
      ((rseqLine max_n).data ++ (child1Line.data ++
        ((childrenText (pyRange 2 (max_n + 1))).data ++ footerText.data)))) := by
  rw [docText_eq]
  simp [String.data_append, List.append_assoc]

theorem pyRange_all_ge (max_n : Int) : ∀ i ∈ pyRange 2 (max_n + 1), (2 : Int) ≤ i :=
  fun _ hi => (pyRange_mem.mp hi).1

theorem child_text_miss_ppP (w : List Char) (i : Int) (r' : List Char) :
    ¬ ('#' :: ("define MANGROVE_P".data ++ w)) <+: ((child_text i).data ++ r') := by
  have e1 : ('#' :: ("define MANGROVE_P".data ++ w)) =
      "#define MANGROVE_P".data ++ w := by
    have h : "#define MANGROVE_P".data = '#' :: "define MANGROVE_P".data := by decide
    rw [h]; rfl
  have e2 : (child_text i).data ++ r' = "#define MANGROVE_C".data ++
      ("HILD".data ++ ((pyStr i).data ++ '(' :: (childTextBody i ++ r'))) := by
    rw [child_text_shape]
    have h : "#define MANGROVE_CHILD".data =
        "#define MANGROVE_C".data ++ "HILD".data := by decide
    rw [h]
    simp [List.append_assoc]
  rw [e1, e2]
  exact not_prefix_of_ne_heads _ _ (by decide) (by decide)

theorem child_text_miss_child1 (i : Int) (hi : 2 ≤ i) (r' : List Char) :
    ¬ ('#' :: "define MANGROVE_CHILD1(base, field1) MANGROVE_KEY_BY_VALUE(&base::field1)\n\n".data) <+:
      ((child_text i).data ++ r') := by
  have e1 : ('#' :: "define MANGROVE_CHILD1(base, field1) MANGROVE_KEY_BY_VALUE(&base::field1)\n\n".data) =
      "#define MANGROVE_CHILD".data ++ ((pyStr 1).data ++ '(' ::
        "base, field1) MANGROVE_KEY_BY_VALUE(&base::field1)\n\n".data) := by decide
  have e2 : (child_text i).data ++ r' = "#define MANGROVE_CHILD".data ++
      ((pyStr i).data ++ '(' :: (childTextBody i ++ r')) := by
    rw [child_text_shape]
    simp [List.append_assoc]
  rw [e1, e2]
  exact not_prefix_cancel (not_prefix_digit_boundary _ _
    (by decide)
    (not_mem_of_subset (pyStr_subset i (by omega)) (by decide))
    (pyStr_data_ne (by omega : (1 : Int) ≠ i)))

theorem doc_count_ppArg (max_n : Int) :
    occCountStr ppArgHead (docText max_n) = 1 := by
  show occCount ppArgHead.data (docText max_n).data = 1
  have hpat : ppArgHead.data = '#' :: "define MANGROVE_PP_ARG_N(".data := by decide
  have hconv : "define MANGROVE_PP_ARG_N(".data =
      "define MANGROVE_PP_A".data ++ "RG_N(".data := by decide
  rw [hpat, docText_data]
  rw [hconv, occCount_header_ppA, ← hconv]
  rw [occCount_argN_hit]
  rw [hconv, occCount_rseq_ppA, ← hconv]
  have hsplit : "define MANGROVE_PP_ARG_N(".data =
      "define MANGROVE_P".data ++ "P_ARG_N(".data := by decide
  rw [hsplit]
  rw [occCount_child1_ppP]
  rw [occCount_children_miss _ _ _
    (fun i _ r' => child_text_miss_ppP "P_ARG_N(".data i r')]
  have hfoot : '#' :: ("define MANGROVE_P".data ++ "P_ARG_N(".data) =
      '#' :: ('d' :: ("efine MANGROVE_P".data ++ "P_ARG_N(".data)) := by
    have h : "define MANGROVE_P".data = 'd' :: "efine MANGROVE_P".data := by decide
    rw [h]; rfl
  rw [hfoot, occCount_footer]

theorem doc_count_ppRseq (max_n : Int) :
    occCountStr ppRseqHead (docText max_n) = 1 := by
  show occCount ppRseqHead.data (docText max_n).data = 1
  have hpat : ppRseqHead.data = '#' :: "define MANGROVE_PP_RSEQ_N()".data := by decide
  rw [hpat, docText_data]
  rw [occCount_header_ppRseq, occCount_argN_ppRseq, occCount_rseq_hit]
  have hsplit : "define MANGROVE_PP_RSEQ_N()".data =
      "define MANGROVE_P".data ++ "P_RSEQ_N()".data := by decide
  rw [hsplit]
  rw [occCount_child1_ppP]
  rw [occCount_children_miss _ _ _
    (fun i _ r' => child_text_miss_ppP "P_RSEQ_N()".data i r')]
  have hfoot : '#' :: ("define MANGROVE_P".data ++ "P_RSEQ_N()".data) =
      '#' :: ('d' :: ("efine MANGROVE_P".data ++ "P_RSEQ_N()".data)) := by
    have h : "define MANGROVE_P".data = 'd' :: "efine MANGROVE_P".data := by decide
    rw [h]; rfl
  rw [hfoot, occCount_footer]

theorem doc_count_fam (max_n : Int) :
    occCountStr famHead (docText max_n) = 1 + (pyRange 2 (max_n + 1)).length := by
  show occCount famHead.data (docText max_n).data = _
  have hpat : famHead.data = '#' :: "define MANGROVE_CHILD".data := by decide
  have hsplit : "define MANGROVE_CHILD".data =
      "define MANGROVE_C".data ++ "HILD".data := by decide
  rw [hpat, docText_data]
  rw [hsplit, occCount_header_famC, occCount_argN_famC, occCount_rseq_famC, ← hsplit]
  rw [occCount_child1_fam]
  rw [occCount_children_fam]
  have hfoot : ('#' :: "define MANGROVE_CHILD".data) =
      '#' :: ('d' :: "efine MANGROVE_CHILD".data) := by decide
  rw [hfoot, occCount_footer]
  omega

theorem doc_count_child1 (max_n : Int) :
    occCountStr child1Line (docText max_n) = 1 := by
  show occCount child1Line.data (docText max_n).data = 1
  have hpat : child1Line.data =
      '#' :: "define MANGROVE_CHILD1(base, field1) MANGROVE_KEY_BY_VALUE(&base::field1)\n\n".data := by
    decide
  have hsplit : "define MANGROVE_CHILD1(base, field1) MANGROVE_KEY_BY_VALUE(&base::field1)\n\n".data =
      "define MANGROVE_C".data ++
        "HILD1(base, field1) MANGROVE_KEY_BY_VALUE(&base::field1)\n\n".data := by decide
  rw [hpat, docText_data]
  rw [hsplit, occCount_header_famC, occCount_argN_famC, occCount_rseq_famC, ← hsplit]
  have hhit : ∀ r : List Char,
      occCount ('#' :: "define MANGROVE_CHILD1(base, field1) MANGROVE_KEY_BY_VALUE(&base::field1)\n\n".data)
        (child1Line.data ++ r) =
      1 + occCount ('#' :: "define MANGROVE_CHILD1(base, field1) MANGROVE_KEY_BY_VALUE(&base::field1)\n\n".data) r := by
    intro r
    have e : child1Line.data ++ r =
        ('#' :: "define MANGROVE_CHILD1(base, field1) MANGROVE_KEY_BY_VALUE(&base::field1)\n\n".data) ++ r := by
      rw [hpat]
    rw [e]
    exact occCount_hit _ (by decide)
  rw [hhit]
  rw [occCount_children_miss _ _ _
    (fun i hi r' => child_text_miss_child1 i ((pyRange_mem.mp hi).1) r')]
  have hfoot : ('#' :: "define MANGROVE_CHILD1(base, field1) MANGROVE_KEY_BY_VALUE(&base::field1)\n\n".data) =
      '#' :: ('d' :: "efine MANGROVE_CHILD1(base, field1) MANGROVE_KEY_BY_VALUE(&base::field1)\n\n".data) := by
    decide
  rw [hfoot, occCount_footer]

theorem defHead_cons (i : Int) : (defHead i).data = '#' :: defHeadTail i := by
  have h1 : "#define MANGROVE_CHILD".data =
      '#' :: "define MANGROVE_CHILD".data := by decide
  have h2 : "(".data = ['('] := by decide
  simp [defHead, defHeadTail, String.data_append, h1, h2, List.append_assoc]

theorem doc_count_defHead (max_n i0 : Int) (h1 : 1 ≤ i0) (h2 : i0 ≤ max_n) :
    occCountStr (defHead i0) (docText max_n) = 1 := by
  show occCount (defHead i0).data (docText max_n).data = 1
  have hsplit : ('#' :: defHeadTail i0) = '#' :: ("define MANGROVE_C".data ++
      ("HILD".data ++ ((pyStr i0).data ++ ['(']))) := by
    have h : "define MANGROVE_CHILD".data =
        "define MANGROVE_C".data ++ "HILD".data := by decide
    simp [defHeadTail, h, List.append_assoc]
  rw [defHead_cons, docText_data]
  rw [hsplit, occCount_header_famC, occCount_argN_famC, occCount_rseq_famC, ← hsplit]
  have hfootform : ('#' :: defHeadTail i0) =
      '#' :: ('d' :: ("efine MANGROVE_CHILD".data ++ ((pyStr i0).data ++ ['(']))) := by
    have h : "define MANGROVE_CHILD".data =
        'd' :: "efine MANGROVE_CHILD".data := by decide
    simp [defHeadTail, h, List.append_assoc]
  by_cases hone : i0 = 1
  · subst hone
    rw [occCount_child1_defHead_one]
    rw [occCount_children_defHead 1 (by omega) _ _ (pyRange_all_ge max_n)]
    rw [pyRange_count_zero (by omega)]
    rw [hfootform, occCount_footer]
  · rw [occCount_child1_defHead_ne i0 h1 hone]
    rw [occCount_children_defHead i0 h1 _ _ (pyRange_all_ge max_n)]
    rw [pyRange_count_one (by omega) (by omega)]
    rw [hfootform, occCount_footer]

theorem child_text_head_split (i : Int) :
    (child_text i).data = (defHead i).data ++ childTextBody i := by
  rw [child_text_shape, defHead_cons]
  have h : "#define MANGROVE_CHILD".data = '#' :: "define MANGROVE_CHILD".data := by
    decide
  rw [h]
  simp [defHeadTail, List.append_assoc]

theorem child1Line_head_split :
    child1Line.data = (defHead 1).data ++
      "base, field1) MANGROVE_KEY_BY_VALUE(&base::field1)\n\n".data := by decide

theorem argNLine_head_split (max_n : Int) :
    (argNLine max_n).data = ppArgHead.data ++
      ((pyConcat (argNPlaceholders max_n)).data ++ " N, ...) N\n\n".data) := by
  simp [argNLine, ppArgHead, String.data_append, List.append_assoc]

theorem rseqLine_head_split (max_n : Int) :
    (rseqLine max_n).data = ppRseqHead.data ++ (" ".data ++
      ((pyJoin ", " ((rseqInts max_n).map pyStr)).data ++ "\n\n".data)) := by
  have h : "#define MANGROVE_PP_RSEQ_N() ".data =
      "#define MANGROVE_PP_RSEQ_N()".data ++ " ".data := by decide
  simp [rseqLine, ppRseqHead, String.data_append, h, List.append_assoc]

theorem doc_split_pair (max_n : Int) :
    ∃ u v w : List Char, (docText max_n).data =
      u ++ ppArgHead.data ++ v ++ ppRseqHead.data ++ w ∧
      ∃ p q : List Char, w = p ++ (defHead 1).data ++ q := by
  refine ⟨headerText.data,
    (pyConcat (argNPlaceholders max_n)).data ++ " N, ...) N\n\n".data,
    (" ".data ++ ((pyJoin ", " ((rseqInts max_n).map pyStr)).data ++ "\n\n".data)) ++
      (child1Line.data ++
        ((childrenText (pyRange 2 (max_n + 1))).data ++ footerText.data)),
    ?_, ?_⟩
  · rw [docText_data, argNLine_head_split, rseqLine_head_split]
    simp [List.append_assoc]
  · refine ⟨" ".data ++ ((pyJoin ", " ((rseqInts max_n).map pyStr)).data ++
      "\n\n".data),
      "base, field1) MANGROVE_KEY_BY_VALUE(&base::field1)\n\n".data ++
        ((childrenText (pyRange 2 (max_n + 1))).data ++ footerText.data), ?_⟩
    rw [child1Line_head_split]
    simp [List.append_assoc]

theorem doc_split_consecutive (max_n i : Int) (h1 : 1 ≤ i) (h2 : i < max_n) :
    ∃ x y z : List Char, (docText max_n).data =
      x ++ (defHead i).data ++ y ++ (defHead (i + 1)).data ++ z := by
  by_cases hone : i = 1
  · subst hone
    have hr : pyRange 2 (max_n + 1) = 2 :: pyRange 3 (max_n + 1) := by
      have e := pyRange_split 2 3 (max_n + 1) (by omega) (by omega)
      rw [show (3 : Int) = 2 + 1 from rfl, pyRange_single] at e
      simpa using e
    have hch : (childrenText (pyRange 2 (max_n + 1))).data =
        ((defHead 2).data ++ childTextBody 2) ++ ("\n\n".data ++
          (childrenText (pyRange 3 (max_n + 1))).data) := by
      rw [hr, childrenText_data_cons, child_text_head_split]
    refine ⟨headerText.data ++ ((argNLine max_n).data ++ (rseqLine max_n).data),
      "base, field1) MANGROVE_KEY_BY_VALUE(&base::field1)\n\n".data,
      childTextBody 2 ++ ("\n\n".data ++
        ((childrenText (pyRange 3 (max_n + 1))).data ++ footerText.data)), ?_⟩
    rw [docText_data, hch, child1Line_head_split,
      show (1 : Int) + 1 = 2 from rfl]
    simp [List.append_assoc]
  · have hi2 : (2 : Int) ≤ i := by omega
    have hsplit : pyRange 2 (max_n + 1) =
        pyRange 2 i ++ (i :: (i + 1) :: pyRange (i + 1 + 1) (max_n + 1)) := by
      have e1 := pyRange_split 2 i (max_n + 1) hi2 (by omega)
      have e2 := pyRange_split i (i + 1) (max_n + 1) (by omega) (by omega)
      have e3 := pyRange_split (i + 1) (i + 1 + 1) (max_n + 1) (by omega) (by omega)
      rw [pyRange_single] at e2 e3
      rw [e1, e2, e3]
      simp
    have hch : (childrenText (pyRange 2 (max_n + 1))).data =
        (childrenText (pyRange 2 i)).data ++ ((child_text i).data ++
          ("\n\n".data ++ ((child_text (i + 1)).data ++ ("\n\n".data ++
            (childrenText (pyRange (i + 1 + 1) (max_n + 1))).data)))) := by
      rw [hsplit, childrenText_append, String.data_append,
        childrenText_data_cons, childrenText_data_cons]
    refine ⟨headerText.data ++ ((argNLine max_n).data ++ ((rseqLine max_n).data ++
        (child1Line.data ++ (childrenText (pyRange 2 i)).data))),
      childTextBody i ++ "\n\n".data,
      childTextBody (i + 1) ++ ("\n\n".data ++
        ((childrenText (pyRange (i + 1 + 1) (max_n + 1))).data ++ footerText.data)),
      ?_⟩
    rw [docText_data, hch]
    simp only [child_text_head_split]
    simp [List.append_assoc]

/-- C10: `print_macros` never raises, for any integer `max_n` (including 0,
1, and negative values), and its output always begins with the fixed header
boilerplate, contains each counting-macro definition exactly once and the
fixed `MANGROVE_CHILD1` base-case line exactly once, and contains no variant
of depth 2 or greater when `max_n < 2` (the output is then exactly header,
counting pair, base case and trailing boilerplate). -/
theorem C10_print_macros_total (max_n : Int) :
    (print_macros max_n).2 = none ∧
    (∃ rest, docText max_n = headerText ++ rest) ∧
    occCountStr ppArgHead (docText max_n) = 1 ∧
    occCountStr ppRseqHead (docText max_n) = 1 ∧
    occCountStr child1Line (docText max_n) = 1 ∧
    (max_n < 2 → docText max_n = headerText ++ argNLine max_n ++ rseqLine max_n ++
      child1Line ++ footerText) := by
  refine ⟨print_macros_err max_n,
    ⟨argNLine max_n ++ rseqLine max_n ++ child1Line ++
      childrenText (pyRange 2 (max_n + 1)) ++ footerText, ?_⟩,
    doc_count_ppArg max_n, doc_count_ppRseq max_n, doc_count_child1 max_n, ?_⟩
  · rw [docText_eq]
    simp [String.append_assoc]
  · intro hlt
    have hempty : pyRange 2 (max_n + 1) = [] := by
      unfold pyRange
      rw [show (max_n + 1 - 2).toNat = 0 from by omega]
      rfl
    rw [docText_eq, hempty]
    rw [show childrenText [] = "" from rfl]
    rw [String.append_empty]

theorem C10_print_macros_total_witness :
    docText 0 = headerText ++ argNLine 0 ++ rseqLine 0 ++ child1Line ++ footerText :=
  (C10_print_macros_total 0).2.2.2.2.2 (by decide)

/-- C9: the document generated for the default depth 100 contains exactly 100
child-macro variant definitions (one hundred occurrences of the opening
`#define MANGROVE_CHILD`), numbered 1 through 100 with no gaps (the opening
of each variant `i` with 1 ≤ i ≤ 100 occurs exactly once), in strictly
increasing depth order (for each consecutive pair the document splits around
variant `i` then variant `i+1`), all preceded by exactly one Counting-Macro
Pair (each counting macro defined exactly once, in order, before variant 1). -/
theorem C9_default_depth_document :
    occCountStr famHead (docText 100) = 100 ∧
    (∀ i : Int, 1 ≤ i → i ≤ 100 → occCountStr (defHead i) (docText 100) = 1) ∧
    occCountStr ppArgHead (docText 100) = 1 ∧
    occCountStr ppRseqHead (docText 100) = 1 ∧
    (∀ i : Int, 1 ≤ i → i < 100 → ∃ x y z : List Char, (docText 100).data =
      x ++ (defHead i).data ++ y ++ (defHead (i + 1)).data ++ z) ∧
    (∃ u v w : List Char, (docText 100).data =
      u ++ ppArgHead.data ++ v ++ ppRseqHead.data ++ w ∧
      ∃ p q : List Char, w = p ++ (defHead 1).data ++ q) := by
  refine ⟨?_, fun i hi1 hi2 => doc_count_defHead 100 i hi1 hi2,
    doc_count_ppArg 100, doc_count_ppRseq 100,
    fun i hi1 hi2 => doc_split_consecutive 100 i hi1 hi2, doc_split_pair 100⟩
  rw [doc_count_fam 100, pyRange_length]
  decide

theorem C9_default_depth_document_witness :
    occCountStr (defHead 50) (docText 100) = 1 :=
  C9_default_depth_document.2.1 50 (by decide) (by decide)

theorem occCount_le_append_left (pat u s : List Char) :
    occCount pat s ≤ occCount pat (u ++ s) := by
  induction u with
  | nil => exact le_refl _
  | cons y ys ih =>
    rw [List.cons_append, occCount_cons]
    omega

theorem occCount_pos_of_pre (c : Char) (p v : List Char) :
    1 ≤ occCount (c :: p) ((c :: p) ++ v) := by
  rw [List.cons_append, occCount_cons]
  have hpre : (c :: p).isPrefixOf (c :: (p ++ v)) = true := by
    rw [List.isPrefixOf_iff_prefix]
    exact ⟨v, by simp⟩
  rw [hpre]
  simp

theorem occCount_pos_of_substring {c : Char} {p s : List Char}
    (h : (c :: p) <:+: s) : 1 ≤ occCount (c :: p) s := by
  obtain ⟨u, v, huv⟩ := h
  calc 1 ≤ occCount (c :: p) ((c :: p) ++ v) := occCount_pos_of_pre c p v
  _ ≤ occCount (c :: p) (u ++ ((c :: p) ++ v)) := occCount_le_append_left _ u _
  _ = occCount (c :: p) s := by rw [← List.append_assoc, huv]

/-- The depth-1 selector line (`_0, _1, _2` then the result slot) occurs
nowhere in the depth-2 document, whose selector line has one more
placeholder. -/
theorem occCount_argN1_doc2 : occCount (argNLine 1).data (docText 2).data = 0 := by
  have hpat : (argNLine 1).data = '#' :: ("define MANGROVE_PP_A".data ++
      "RG_N(_0, _1, _2,  N, ...) N\n\n".data) := by decide
  rw [hpat, docText_data]
  rw [occCount_header_ppA]
  have hargN2 : (argNLine 2).data = '#' :: ("define MANGROVE_PP_ARG_N(_0, _1, _2, ".data ++
      "_3,  N, ...) N\n\n".data) := by decide
  have hm : ∀ r' : List Char, ¬ ('#' :: ("define MANGROVE_PP_A".data ++
      "RG_N(_0, _1, _2,  N, ...) N\n\n".data)) <+:
      (('#' :: ("define MANGROVE_PP_ARG_N(_0, _1, _2, ".data ++
        "_3,  N, ...) N\n\n".data)) ++ r') := by
    intro r'
    have e1 : ('#' :: ("define MANGROVE_PP_A".data ++
        "RG_N(_0, _1, _2,  N, ...) N\n\n".data)) =
        "#define MANGROVE_PP_ARG_N(_0, _1, _2,  ".data ++ "N, ...) N\n\n".data := by
      decide
    have e2 : ('#' :: ("define MANGROVE_PP_ARG_N(_0, _1, _2, ".data ++
        "_3,  N, ...) N\n\n".data)) ++ r' =
        "#define MANGROVE_PP_ARG_N(_0, _1, _2, _".data ++
          ("3,  N, ...) N\n\n".data ++ r') := by
      have h : ('#' :: ("define MANGROVE_PP_ARG_N(_0, _1, _2, ".data ++
          "_3,  N, ...) N\n\n".data)) =
          "#define MANGROVE_PP_ARG_N(_0, _1, _2, _".data ++
            "3,  N, ...) N\n\n".data := by decide
      rw [h, List.append_assoc]
    rw [e1, e2]
    exact not_prefix_of_ne_heads _ _ (by decide) (by decide)
  rw [hargN2, occCount_miss _ (by decide) (hm _)]
  rw [occCount_rseq_ppA]
  have hsplit : "define MANGROVE_PP_A".data ++ "RG_N(_0, _1, _2,  N, ...) N\n\n".data =
      "define MANGROVE_P".data ++ "P_ARG_N(_0, _1, _2,  N, ...) N\n\n".data := by decide
  rw [hsplit]
  rw [occCount_child1_ppP]
  rw [occCount_children_miss _ _ _
    (fun i _ r' => child_text_miss_ppP "P_ARG_N(_0, _1, _2,  N, ...) N\n\n".data i r')]
  have hfoot : '#' :: ("define MANGROVE_P".data ++
      "P_ARG_N(_0, _1, _2,  N, ...) N\n\n".data) =
      '#' :: ('d' :: ("efine MANGROVE_P".data ++
        "P_ARG_N(_0, _1, _2,  N, ...) N\n\n".data)) := by
    have h : "define MANGROVE_P".data = 'd' :: "efine MANGROVE_P".data := by decide
    rw [h]; rfl
  rw [hfoot, occCount_footer]

/-- C4 counterexample: the document for depth 2 does not contain the document
for depth 1 minus its trailing boilerplate (followed by the depth-2 variant)
as a contiguous substring: the two counting-macro lines are sized to the
depth, so they differ between the two documents.  (If it did, the depth-1
selector line would occur in the depth-2 document; it occurs zero times.) -/
theorem C4_cex :
    ¬ ((docHead 1 ++ child_text 2).data <:+: (docText 2).data) := by
  intro h
  have hsub : (argNLine 1).data <:+: (docHead 1 ++ child_text 2).data := by
    refine ⟨headerText.data,
      (rseqLine 1).data ++ (child1Line.data ++ (child_text 2).data), ?_⟩
    have hempty : childrenText (pyRange 2 2) = "" := rfl
    simp [docHead, hempty, String.data_append, List.append_assoc]
  have hinf : (argNLine 1).data <:+: (docText 2).data := hsub.trans h
  have hpat : (argNLine 1).data = '#' :: ("define MANGROVE_PP_A".data ++
      "RG_N(_0, _1, _2,  N, ...) N\n\n".data) := by decide
  rw [hpat] at hinf
  have hpos := occCount_pos_of_substring hinf
  rw [← hpat, occCount_argN1_doc2] at hpos
  omega

/-- C4 amended: the depth-D and depth-(D+1) documents share the fixed header
and the whole middle section (base-case line and variants 2..D); the two
counting-macro lines are re-sized to the depth; and the depth-(D+1) document
appends exactly one additional variant (depth D+1) before the same trailing
boilerplate. -/
theorem C4_amended (D : Int) (hD : 1 ≤ D) :
    docText (D + 1) = headerText ++ argNLine (D + 1) ++ rseqLine (D + 1) ++
      midSection D ++ (child_text (D + 1) ++ "\n\n") ++ footerText ∧
    docText D = headerText ++ argNLine D ++ rseqLine D ++ midSection D ++
      footerText := by
  constructor
  · rw [docText_eq]
    have hsplit : pyRange 2 (D + 1 + 1) = pyRange 2 (D + 1) ++ [D + 1] :=
      pyRange_succ 2 (D + 1) (by omega)
    rw [hsplit, childrenText_append]
    have hone : childrenText [D + 1] = (child_text (D + 1) ++ "\n\n") ++ "" := rfl
    rw [hone, String.append_empty]
    simp [midSection, String.append_assoc]
  · rw [docText_eq]
    simp [midSection, String.append_assoc]

theorem C4_amended_witness :
    docText 1 = headerText ++ argNLine 1 ++ rseqLine 1 ++ midSection 1 ++
      footerText :=
  (C4_amended 1 (by decide)).2

/-- Sanity checks that the embedded Python primitives behave as in Python. -/
theorem embedding_sanity :
    pyStr 100 = "100" ∧ pyStr (-45) = "-45" ∧ pyStr 0 = "0" ∧
    pyRange 1 4 = [1, 2, 3] ∧ pyRange 2 2 = [] ∧
    pyJoin ", " ["a", "b", "c"] = "a, b, c" ∧ pyConcat ["a", "b"] = "ab" ∧
    prevFields 3 = "field1, field2" ∧
    pyIntParse "42" = some 42 ∧ pyIntParse "-3" = some (-3) ∧
    pyIntParse " 42 " = some 42 ∧ pyIntParse "\t-7\n" = some (-7) ∧
    pyIntParse "x1" = none ∧ pyIntParse " " = none ∧ pyIntParse "4 2" = none ∧
    occCountStr "ab" "xabyab" = 2 := by
  refine ⟨rfl, rfl, rfl, by decide, by decide, rfl, rfl, rfl, rfl, rfl, rfl, rfl,
    rfl, rfl, rfl, rfl⟩

end Mangrove
